import Mathlib

/-!
# Verification of the presentation-toolkit core

A shallow embedding, in Lean 4, of the core of the `ai-presentation-toolkit`
repository: the content-document model (`content.py`), the layout cookbook and
slide builders (`cookbook.py`), and the template diagnostic engine
(`diagnose.py`).  Pure functions of the Python source are translated into Lean
functions; pydantic construction-time validation is translated into functions
returning `Except` (raising `ValidationError` corresponds to `.error`); dict
keys that may be absent are translated into `Option` fields; lxml element
trees are translated into an inductive XML-element type.

Modelling conventions, stated once here:
* Python `str` is `String`, Python `int` is `Int`, Python lists are `List`.
* Python floats appearing in the cookbook are decimal literals used only as
  inch measurements; they are modelled as exact rationals (`ℚ`), and `int()`
  truncation toward zero is modelled on `ℚ`.
* The module `pptx_utils` is imported by the source but its file is not part
  of the sources at hand; the handful of names taken from it
  (`EMU_PER_INCH`, `find_placeholder`, `find_shape_by_name`) are modelled
  from the spec, and each such definition is marked `Modelled from the spec:`.
-/

set_option maxHeartbeats 1000000

namespace PTK

/-! ## Content document model (`content.py`) -/

/-- Model of `ContentType` enum (content.py lines 17-33): the 15 content
classifications for a slide. -/
inductive ContentType where
  | auto
  | statistic
  | stats_dashboard
  | quote
  | numbered_step
  | bullet_list
  | comparison
  | section_header
  | case_study
  | case_study_full
  | statement
  | feature
  | detailed_content
  | title_opening
  | closing
deriving DecidableEq, Repr

/-- The string value of each `ContentType` member, as in the Python enum. -/
def ContentType.value : ContentType → String
  | .auto => "auto"
  | .statistic => "statistic"
  | .stats_dashboard => "stats_dashboard"
  | .quote => "quote"
  | .numbered_step => "numbered_step"
  | .bullet_list => "bullet_list"
  | .comparison => "comparison"
  | .section_header => "section_header"
  | .case_study => "case_study"
  | .case_study_full => "case_study_full"
  | .statement => "statement"
  | .feature => "feature"
  | .detailed_content => "detailed_content"
  | .title_opening => "title_opening"
  | .closing => "closing"

/-- Coercion of a string to the `ContentType` enum, as pydantic performs when
a string is supplied for a `ContentType` field: the string must be the value
of some member, otherwise validation fails. -/
def parseContentType : String → Option ContentType
  | "auto" => some .auto
  | "statistic" => some .statistic
  | "stats_dashboard" => some .stats_dashboard
  | "quote" => some .quote
  | "numbered_step" => some .numbered_step
  | "bullet_list" => some .bullet_list
  | "comparison" => some .comparison
  | "section_header" => some .section_header
  | "case_study" => some .case_study
  | "case_study_full" => some .case_study_full
  | "statement" => some .statement
  | "feature" => some .feature
  | "detailed_content" => some .detailed_content
  | "title_opening" => some .title_opening
  | "closing" => some .closing
  | _ => none

/-- Model of `ImagePlacement` enum (content.py lines 36-43). -/
inductive ImagePlacement where
  | auto
  | background
  | left
  | right
  | center
  | inline
deriving DecidableEq, Repr

/-- The string value of each `ImagePlacement` member. -/
def ImagePlacement.value : ImagePlacement → String
  | .auto => "auto"
  | .background => "background"
  | .left => "left"
  | .right => "right"
  | .center => "center"
  | .inline => "inline"

/-- Coercion of a string to `ImagePlacement`, as pydantic performs. -/
def parsePlacement : String → Option ImagePlacement
  | "auto" => some .auto
  | "background" => some .background
  | "left" => some .left
  | "right" => some .right
  | "center" => some .center
  | "inline" => some .inline
  | _ => none

/-- Model of `SlideImage` model (content.py lines 46-53): an image associated with a
slide.  All fields but `path` have defaults. -/
structure SlideImage where
  path : String
  width : Int := 0
  height : Int := 0
  ext : String := ""
  alt_text : String := ""
  placement : ImagePlacement := .auto
deriving DecidableEq, Repr

/-- Model of `StatZone` model (content.py lines 56-59). -/
structure StatZone where
  number : String
  label : String
deriving DecidableEq, Repr

/-- Model of `StatsDashboardZones` payload (content.py lines 62-65).  The frozen
`type` field always holds `"stats_dashboard"` after construction from the
model default; the `stats` field carries the 1..6 stat zones (the length
bounds are checked where the payload is constructed from untyped data). -/
structure StatsDashboardZones where
  stats : List StatZone
deriving DecidableEq, Repr

/-- Model of `CaseStudyZones` payload (content.py lines 68-75). -/
structure CaseStudyZones where
  company_name : String := ""
  description : String := ""
  bullets : String := ""
  quote : String := ""
  attribution : String := ""
deriving DecidableEq, Repr

/-- The `Union[StatsDashboardZones, CaseStudyZones]` zone payload of a slide
(content.py line 87), as a sum type. -/
inductive Zones where
  | statsDashboard (z : StatsDashboardZones)
  | caseStudy (z : CaseStudyZones)
deriving DecidableEq, Repr

/-- The classification a zone payload's tag corresponds to, per the §3
invariant of the spec (stats_dashboard ↔ StatsDashboardZones,
case_study_full ↔ CaseStudyZones). -/
def zoneTag : Zones → ContentType
  | .statsDashboard _ => .stats_dashboard
  | .caseStudy _ => .case_study_full

/-- Model of `SlideContent` model (content.py lines 78-102).  Invariants enforced by
pydantic at construction time are enforced by `mkSlideContent` below. -/
structure SlideContent where
  number : Int
  title : String
  body : String
  speaker_notes : String := ""
  content_type : ContentType := .auto
  layout_hint : String := ""
  images : List SlideImage := []
  zones : Option Zones := none
  extraction_notes : List String := []
deriving DecidableEq, Repr

/-- The `zones_must_match_content_type` model validator (content.py lines
90-102): when a zone payload is present and the content type is not `auto`,
the payload variant must correspond to the content type. -/
def zonesMustMatchContentType (s : SlideContent) : Except String SlideContent :=
  if s.zones.isSome ∧ s.content_type ≠ ContentType.auto then
    match s.zones with
    | some (.statsDashboard _) =>
        if s.content_type ≠ ContentType.stats_dashboard then
          .error "StatsDashboardZones requires content_type=\x27stats_dashboard\x27"
        else .ok s
    | some (.caseStudy _) =>
        if s.content_type ≠ ContentType.case_study_full then
          .error "CaseStudyZones requires content_type=\x27case_study_full\x27"
        else .ok s
    | none => .ok s
  else .ok s

/-- Construction of a `SlideContent`, mirroring pydantic validation: the
`number` field carries the constraint `ge=1` (content.py line 80), and the
model validator `zones_must_match_content_type` runs after field validation. -/
def mkSlideContent (number : Int) (title body : String)
    (speaker_notes : String := "") (content_type : ContentType := .auto)
    (layout_hint : String := "") (images : List SlideImage := [])
    (zones : Option Zones := none) (extraction_notes : List String := []) :
    Except String SlideContent :=
  if number < 1 then .error "number must be greater than or equal to 1"
  else
    zonesMustMatchContentType
      { number := number, title := title, body := body
        speaker_notes := speaker_notes, content_type := content_type
        layout_hint := layout_hint, images := images, zones := zones
        extraction_notes := extraction_notes }

/-- Model of `ContentMetadata` model (content.py lines 105-115). -/
structure ContentMetadata where
  source_file : String
  source_format : String
  generated_at : String := ""
  generator : String := ""
deriving DecidableEq, Repr

/-- Python `str.lower()` (ASCII range; the source only feeds it format
suffixes and relationship type URIs). -/
def lowerStr (s : String) : String :=
  (s.toList.map Char.toLower).asString

/-- The `normalize_format` field validator (content.py lines 112-115):
`v.lower().lstrip(".")` — lower-case, then strip every leading dot. -/
def normalizeFmt (v : String) : String :=
  ((lowerStr v).toList.dropWhile (fun c => c = '.')).asString

/-- Construction of `ContentMetadata`: the `source_format` field is
normalized by the `mode="before"` field validator; no check can fail. -/
def mkContentMetadata (source_file source_format : String)
    (generated_at : String := "") (generator : String := "") : ContentMetadata :=
  { source_file := source_file, source_format := normalizeFmt source_format
    generated_at := generated_at, generator := generator }

/-- Model of `ContentDocument` model (content.py lines 118-122). -/
structure ContentDocument where
  version : String := "1.0"
  metadata : ContentMetadata
  slides : List SlideContent
deriving DecidableEq, Repr

/-- Construction of a `ContentDocument`, mirroring pydantic validation: the
`slides` field carries `min_length=1` (content.py line 122).  Slides passed
as already-constructed model instances are not re-validated (pydantic
default `revalidate_instances="never"`). -/
def mkContentDocument (version : String) (metadata : ContentMetadata)
    (slides : List SlideContent) : Except String ContentDocument :=
  if slides.length < 1 then
    .error "List should have at least 1 item after validation"
  else .ok { version := version, metadata := metadata, slides := slides }

/-- Whether an `Except` result is a success (Python: construction did not
raise). -/
def isOkE {ε α : Type} : Except ε α → Bool
  | .ok _ => true
  | .error _ => false

/-! ## Layout cookbook (`cookbook.py`) -/

/-- Modelled from the spec: `EMU_PER_INCH` lives in the absent `pptx_utils`
module; the cookbook docstring and §3/§8 of the spec fix it at 914400 EMUs
per inch. -/
def EMU_PER_INCH : ℚ := 914400

/-- Python `int()` applied to a (positive or negative) real measurement:
truncation toward zero, modelled on exact rationals (numerator
T-divided by denominator). -/
def truncToInt (v : ℚ) : Int :=
  v.num.tdiv v.den

/-- Model of `BoxPosition` (cookbook.py lines 24-40): position and size in EMUs. -/
structure BoxPosition where
  x : Int
  y : Int
  cx : Int
  cy : Int
deriving DecidableEq, Repr

/-- Model of `BoxPosition.from_inches` (cookbook.py lines 32-40): each inch value is
multiplied by `EMU_PER_INCH` and truncated to an integer. -/
def BoxPosition.fromInches (x y w h : ℚ) : BoxPosition :=
  { x := truncToInt (x * EMU_PER_INCH)
    y := truncToInt (y * EMU_PER_INCH)
    cx := truncToInt (w * EMU_PER_INCH)
    cy := truncToInt (h * EMU_PER_INCH) }

/-- Model of `TextBoxSpec` (cookbook.py lines 43-53). -/
structure TextBoxSpec where
  name : String
  position : BoxPosition
  font_size_pt : Int := 14
  bold : Bool := false
  italic : Bool := false
  alignment : String := "l"
  font_color : String := "000000"
  vertical_anchor : String := "t"
deriving DecidableEq, Repr

/-- Model of `ImageBoxSpec` (cookbook.py lines 56-60). -/
structure ImageBoxSpec where
  name : String
  position : BoxPosition
deriving DecidableEq, Repr

/-- Model of `BackgroundSpec` (cookbook.py lines 63-67). -/
structure BackgroundSpec where
  color : String := "FFFFFF"
  image : Bool := false
deriving DecidableEq, Repr

/-- Model of `LayoutRecipe` (cookbook.py lines 70-79). -/
structure LayoutRecipe where
  name : String
  description : String := ""
  title : Option TextBoxSpec := none
  body : Option TextBoxSpec := none
  extra_text_boxes : List TextBoxSpec := []
  image_boxes : List ImageBoxSpec := []
  background : BackgroundSpec := {}
deriving DecidableEq, Repr

/-- Column x-offsets of the stats-dashboard grid (cookbook.py line 218). -/
def colPositions : List ℚ := [0.5, 3.5, 6.5]

/-- Row y-offsets of the stats-dashboard grid (cookbook.py line 219). -/
def rowPositions : List ℚ := [1.5, 4.2]

/-- The 12 stat-zone text boxes of the `stats_dashboard` recipe, derived
programmatically from the 3×2 grid (cookbook.py lines 217-241): for each row
and column (row-major), zone number `row*3 + col + 1`, a number box at the
grid point and a label box 1.2 inches below it. -/
def statZoneBoxes : List TextBoxSpec :=
  rowPositions.enum.flatMap (fun rowP =>
    colPositions.enum.flatMap (fun colP =>
      let rowIdx := rowP.1
      let rowY := rowP.2
      let colIdx := colP.1
      let colX := colP.2
      let zoneNum := rowIdx * 3 + colIdx + 1
      [ { name := s!"Stat{zoneNum}_Number"
          position := BoxPosition.fromInches colX rowY 2.5 1.2
          font_size_pt := 36, bold := true, alignment := "ctr"
          vertical_anchor := "b" },
        { name := s!"Stat{zoneNum}_Label"
          position := BoxPosition.fromInches colX (rowY + 1.2) 2.5 0.8
          font_size_pt := 12, alignment := "ctr", font_color := "666666"
          vertical_anchor := "t" } ]))

/-- Model of `_build_recipes` (cookbook.py lines 86-403): the 13 built-in recipes in
insertion order.  A Python dict preserves insertion order, so the registry is
modelled as an association list. -/
def buildRecipes : List (String × LayoutRecipe) :=
  [ ("title_opening",
     { name := "title_opening"
       description := "Opening/title slide with large centered title"
       title := some { name := "title"
                       position := BoxPosition.fromInches 1.0 2.0 8.0 2.0
                       font_size_pt := 36, bold := true, alignment := "ctr"
                       vertical_anchor := "ctr" }
       body := some { name := "subtitle"
                      position := BoxPosition.fromInches 2.0 4.2 6.0 1.0
                      font_size_pt := 18, alignment := "ctr"
                      font_color := "666666" } }),
    ("feature_default",
     { name := "feature_default"
       description := "Standard feature slide with title and bullet body"
       title := some { name := "title"
                       position := BoxPosition.fromInches 0.7 0.5 8.6 1.0
                       font_size_pt := 28, bold := true }
       body := some { name := "body"
                      position := BoxPosition.fromInches 0.7 1.7 8.6 5.0
                      font_size_pt := 14 } }),
    ("content_image_left",
     { name := "content_image_left"
       description := "Image on left, text content on right"
       title := some { name := "title"
                       position := BoxPosition.fromInches 5.2 0.5 4.5 1.0
                       font_size_pt := 24, bold := true }
       body := some { name := "body"
                      position := BoxPosition.fromInches 5.2 1.7 4.5 5.0
                      font_size_pt := 14 }
       image_boxes := [ { name := "image_left"
                          position := BoxPosition.fromInches 0.3 0.3 4.5 6.9 } ] }),
    ("content_image_right",
     { name := "content_image_right"
       description := "Text content on left, image on right"
       title := some { name := "title"
                       position := BoxPosition.fromInches 0.5 0.5 4.5 1.0
                       font_size_pt := 24, bold := true }
       body := some { name := "body"
                      position := BoxPosition.fromInches 0.5 1.7 4.5 5.0
                      font_size_pt := 14 }
       image_boxes := [ { name := "image_right"
                          position := BoxPosition.fromInches 5.2 0.3 4.5 6.9 } ] }),
    ("statement_center",
     { name := "statement_center"
       description := "Bold centered statement with optional subtitle"
       title := some { name := "title"
                       position := BoxPosition.fromInches 1.0 2.0 8.0 2.5
                       font_size_pt := 32, bold := true, alignment := "ctr"
                       vertical_anchor := "ctr" }
       body := some { name := "body"
                      position := BoxPosition.fromInches 1.5 4.8 7.0 1.5
                      font_size_pt := 16, alignment := "ctr"
                      font_color := "666666" } }),
    ("stat_default",
     { name := "stat_default"
       description := "Single large statistic with label"
       title := some { name := "stat_number"
                       position := BoxPosition.fromInches 1.0 1.5 8.0 3.0
                       font_size_pt := 72, bold := true, alignment := "ctr"
                       vertical_anchor := "ctr" }
       body := some { name := "stat_label"
                      position := BoxPosition.fromInches 1.5 4.5 7.0 2.0
                      font_size_pt := 18, alignment := "ctr"
                      font_color := "666666" } }),
    ("stats_dashboard",
     { name := "stats_dashboard"
       description := "6-zone 3x2 grid for multiple statistics"
       title := some { name := "title"
                       position := BoxPosition.fromInches 0.5 0.3 9.0 0.8
                       font_size_pt := 24, bold := true, alignment := "ctr" }
       extra_text_boxes := statZoneBoxes }),
    ("quote_default",
     { name := "quote_default"
       description := "Centered quote with attribution"
       title := some { name := "quote"
                       position := BoxPosition.fromInches 1.5 1.5 7.0 3.5
                       font_size_pt := 24, italic := true, alignment := "ctr"
                       vertical_anchor := "ctr" }
       body := some { name := "attribution"
                      position := BoxPosition.fromInches 2.0 5.2 6.0 1.0
                      font_size_pt := 14, alignment := "ctr"
                      font_color := "888888" } }),
    ("two_column",
     { name := "two_column"
       description := "Two-column comparison layout"
       title := some { name := "title"
                       position := BoxPosition.fromInches 0.5 0.5 9.0 0.8
                       font_size_pt := 24, bold := true, alignment := "ctr" }
       body := some { name := "col_left"
                      position := BoxPosition.fromInches 0.5 1.5 4.2 5.2
                      font_size_pt := 14 }
       extra_text_boxes := [ { name := "col_right"
                               position := BoxPosition.fromInches 5.3 1.5 4.2 5.2
                               font_size_pt := 14 } ] }),
    ("section_divider",
     { name := "section_divider"
       description := "Section divider with large centered text"
       title := some { name := "title"
                       position := BoxPosition.fromInches 1.0 2.5 8.0 2.5
                       font_size_pt := 40, bold := true, alignment := "ctr"
                       vertical_anchor := "ctr" }
       background := { color := "12285F" } }),
    ("case_study_full",
     { name := "case_study_full"
       description := "Full case study with company, description, bullets, quote, attribution"
       title := some { name := "company_name"
                       position := BoxPosition.fromInches 0.5 0.3 9.0 0.8
                       font_size_pt := 28, bold := true }
       body := some { name := "description"
                      position := BoxPosition.fromInches 0.5 1.3 5.0 2.5
                      font_size_pt := 14 }
       extra_text_boxes :=
         [ { name := "bullets"
             position := BoxPosition.fromInches 0.5 4.0 5.0 3.0
             font_size_pt := 13 },
           { name := "Quote"
             position := BoxPosition.fromInches 6.0 1.3 3.5 3.5
             font_size_pt := 16, italic := true, alignment := "ctr"
             vertical_anchor := "ctr" },
           { name := "Attribution"
             position := BoxPosition.fromInches 6.0 5.0 3.5 1.0
             font_size_pt := 12, alignment := "ctr"
             font_color := "888888" } ] }),
    ("closing_cta",
     { name := "closing_cta"
       description := "Closing slide with call to action"
       title := some { name := "title"
                       position := BoxPosition.fromInches 1.0 2.0 8.0 2.0
                       font_size_pt := 32, bold := true, alignment := "ctr"
                       vertical_anchor := "ctr" }
       body := some { name := "cta"
                      position := BoxPosition.fromInches 2.0 4.5 6.0 1.5
                      font_size_pt := 18, alignment := "ctr"
                      font_color := "009CDE" } }),
    ("hero_photo",
     { name := "hero_photo"
       description := "Full-bleed photo background with text overlay"
       title := some { name := "title"
                       position := BoxPosition.fromInches 0.7 4.5 8.6 1.5
                       font_size_pt := 32, bold := true, font_color := "FFFFFF" }
       body := some { name := "body"
                      position := BoxPosition.fromInches 0.7 6.0 8.6 1.0
                      font_size_pt := 16, font_color := "FFFFFF" }
       image_boxes := [ { name := "background"
                          position := BoxPosition.fromInches 0 0 10 7.5 } ]
       background := { image := true } }) ]

/-- The global recipe registry `COOKBOOK` (cookbook.py line 407). -/
def COOKBOOK : List (String × LayoutRecipe) := buildRecipes

/-- Model of `get_recipe` (cookbook.py lines 410-412): dictionary lookup returning
`None` when absent. -/
def getRecipe (name : String) : Option LayoutRecipe :=
  COOKBOOK.lookup name

/-- Model of `list_recipes` (cookbook.py lines 415-417). -/
def listRecipes : List String := COOKBOOK.map Prod.fst

/-! ## XML element trees and the fragment builders (`cookbook.py`) -/

/-- An lxml element: tag, attributes (in assignment order; the builders never
assign the same attribute twice), optional text, children.  Namespaced tags
`{uri}tag` are written with their fixed prefixes (`p:`, `a:`, `r:`), since
the namespace map is a constant of the source. -/
inductive XElem where
  | mk (tag : String) (attrs : List (String × String)) (text : Option String)
       (children : List XElem)

def XElem.tag : XElem → String
  | .mk t _ _ _ => t

def XElem.attrs : XElem → List (String × String)
  | .mk _ a _ _ => a

def XElem.text : XElem → Option String
  | .mk _ _ tx _ => tx

def XElem.children : XElem → List XElem
  | .mk _ _ _ c => c

/-- Model of `elem.get(key)`: attribute lookup. -/
def XElem.getAttr (e : XElem) (key : String) : Option String :=
  e.attrs.lookup key

/-- Depth-first pre-order search of a list of trees for the first element
with the given tag (the descendant search of `elem.find(".//tag")`). -/
def findByTagL (t : String) : List XElem → Option XElem
  | [] => none
  | XElem.mk tg a tx cs :: rest =>
    if tg = t then some (XElem.mk tg a tx cs)
    else
      match findByTagL t cs with
      | some r => some r
      | none => findByTagL t rest

/-- Model of `elem.find(".//tag")`: first descendant with the given tag. -/
def XElem.findDesc (e : XElem) (t : String) : Option XElem :=
  findByTagL t e.children

/-- All texts of `a:t` descendants, in document order (the observation made
by `xpath(".//a:t")` in the source's tests). -/
def collectTextsL : List XElem → List String
  | [] => []
  | XElem.mk tg _ tx cs :: rest =>
    (if tg = "a:t" then (match tx with | some s => [s] | none => []) else [])
      ++ collectTextsL cs ++ collectTextsL rest

def XElem.collectTexts (e : XElem) : List String :=
  collectTextsL e.children

/-- All `id` attributes of `p:cNvPr` descendants, in document order (the
scan performed by `spTree.xpath(".//p:cNvPr")`). -/
def collectIdsL : List XElem → List String
  | [] => []
  | XElem.mk tg a _ cs :: rest =>
    (if tg = "p:cNvPr" then [(a.lookup "id").getD "0"] else [])
      ++ collectIdsL cs ++ collectIdsL rest

def XElem.collectIds (e : XElem) : List String :=
  collectIdsL e.children

/-- Replace the text of the first `a:t` descendant, leaving the tree
unchanged when none exists (`sp.find(".//a:t")` followed by
`t_elem.text = value` in the source). -/
def setTextL (value : String) : List XElem → List XElem × Bool
  | [] => ([], false)
  | XElem.mk tg a tx cs :: rest =>
    if tg = "a:t" then
      (XElem.mk tg a (some value) cs :: rest, true)
    else
      match setTextL value cs with
      | (cs2, true) => (XElem.mk tg a tx cs2 :: rest, true)
      | (_, false) =>
        let r := setTextL value rest
        (XElem.mk tg a tx cs :: r.1, r.2)

def XElem.setText (e : XElem) (value : String) : XElem :=
  XElem.mk e.tag e.attrs e.text (setTextL value e.children).1

/-- Model of `build_text_box_xml` (cookbook.py lines 437-512): the complete `p:sp`
element for a text box.  Attribute and child order follow the source; the
`b` and `i` run attributes are set only when the corresponding flag is true;
the run text is the empty string, to be overwritten by the caller. -/
def buildTextBoxXml (spec : TextBoxSpec) (shapeId : Int) : XElem :=
  XElem.mk "p:sp" [] none
    [ XElem.mk "p:nvSpPr" [] none
        [ XElem.mk "p:cNvPr" [("id", toString shapeId), ("name", spec.name)] none [],
          XElem.mk "p:cNvSpPr" [("txBox", "1")] none [],
          XElem.mk "p:nvPr" [] none [] ],
      XElem.mk "p:spPr" [] none
        [ XElem.mk "a:xfrm" [] none
            [ XElem.mk "a:off" [("x", toString spec.position.x), ("y", toString spec.position.y)] none [],
              XElem.mk "a:ext" [("cx", toString spec.position.cx), ("cy", toString spec.position.cy)] none [] ],
          XElem.mk "a:prstGeom" [("prst", "rect")] none [XElem.mk "a:avLst" [] none []],
          XElem.mk "a:noFill" [] none [] ],
      XElem.mk "p:txBody" [] none
        [ XElem.mk "a:bodyPr" [("wrap", "square"), ("anchor", spec.vertical_anchor), ("rtlCol", "0")] none [],
          XElem.mk "a:lstStyle" [] none [],
          XElem.mk "a:p" [] none
            [ XElem.mk "a:pPr" [("algn", spec.alignment)] none [],
              XElem.mk "a:r" [] none
                [ XElem.mk "a:rPr"
                    ([("lang", "en-US"), ("sz", toString (spec.font_size_pt * 100)), ("dirty", "0")]
                      ++ (if spec.bold then [("b", "1")] else [])
                      ++ (if spec.italic then [("i", "1")] else []))
                    none
                    [ XElem.mk "a:solidFill" [] none
                        [XElem.mk "a:srgbClr" [("val", spec.font_color)] none []] ],
                  XElem.mk "a:t" [] (some "") [] ] ] ] ]

/-- The mandatory group-shape boilerplate of a fresh slide
(cookbook.py lines 597-615): `p:nvGrpSpPr` with group id 1 and empty name,
followed by `p:grpSpPr` with a zeroed transform. -/
def groupBoilerplate : List XElem :=
  [ XElem.mk "p:nvGrpSpPr" [] none
      [ XElem.mk "p:cNvPr" [("id", "1"), ("name", "")] none [],
        XElem.mk "p:cNvGrpSpPr" [] none [],
        XElem.mk "p:nvPr" [] none [] ],
    XElem.mk "p:grpSpPr" [] none
      [ XElem.mk "a:xfrm" [] none
          [ XElem.mk "a:off" [("x", "0"), ("y", "0")] none [],
            XElem.mk "a:ext" [("cx", "0"), ("cy", "0")] none [],
            XElem.mk "a:chOff" [("x", "0"), ("y", "0")] none [],
            XElem.mk "a:chExt" [("cx", "0"), ("cy", "0")] none [] ] ] ]

/-- Model of `build_slide_from_recipe` (cookbook.py lines 569-640): a complete slide
tree built from scratch.  Shape ids start at 2 (id 1 is the group); the
title box is added only when the recipe has a title spec and the title text
is non-empty (Python truthiness of `recipe.title and title`), likewise the
body; every extra box is then appended with the next ids. -/
def buildSlideFromRecipe (recipe : LayoutRecipe) (title : String := "")
    (body : String := "") : XElem :=
  let step1 : List XElem × Int :=
    match recipe.title with
    | some ts =>
      if title ≠ "" then
        (groupBoilerplate ++ [(buildTextBoxXml ts 2).setText title], 3)
      else (groupBoilerplate, 2)
    | none => (groupBoilerplate, 2)
  let step2 : List XElem × Int :=
    match recipe.body with
    | some bs =>
      if body ≠ "" then
        (step1.1 ++ [(buildTextBoxXml bs step1.2).setText body], step1.2 + 1)
      else step1
    | none => step1
  let step3 : List XElem × Int :=
    recipe.extra_text_boxes.foldl
      (fun acc ex => (acc.1 ++ [buildTextBoxXml ex acc.2], acc.2 + 1)) step2
  XElem.mk "p:sld" [] none
    [XElem.mk "p:cSld" [] none [XElem.mk "p:spTree" [] none step3.1]]

/-- The `p:spTree` children of a built slide. -/
def spTreeChildren (sld : XElem) : List XElem :=
  match sld.findDesc "p:spTree" with
  | some t => t.children
  | none => []

/-! ### `apply_recipe_to_slide` (cookbook.py lines 515-566)

The merge path operates on an existing slide tree.  It is modelled at the
shape-tree level: what the function reads from the tree is exactly the
multiset of `p:cNvPr` occurrences under the `p:spTree` container (their
`id` attributes, parsed with `int(...)`), and what it appends is a sequence
of text-box shapes, each contributing one `p:cNvPr` with a fresh integer id.
An occurrence is therefore modelled as its name together with the *parse
result* of its id attribute (`none` for an id string `int()` rejects; an
absent id attribute defaults to `"0"`, i.e. `some 0`). -/

/-- One `p:cNvPr` occurrence of a shape tree, id attribute already parsed. -/
structure CNvPr where
  name : String
  idAttr : Option Int
deriving DecidableEq, Repr

/-- The max-id scan (cookbook.py lines 535-542): `max_id` starts at 1 and
takes the maximum over every parsable id. -/
def maxExistingId (shapes : List CNvPr) : Int :=
  shapes.foldl
    (fun m c => match c.idAttr with | some i => max m i | none => m) 1

/-- Model of `apply_recipe_to_slide` (cookbook.py lines 515-566) at the shape-tree
level: no-op when the `p:cSld/p:spTree` container is absent; otherwise
appends the title box (when the recipe has one and the title text is
non-empty), then the body box (same rule), then every extra box, with ids
`max_id + 1, max_id + 2, ...`. -/
def applyRecipeToSlide (spTree : Option (List CNvPr)) (recipe : LayoutRecipe)
    (title : String := "") (body : String := "") : Option (List CNvPr) :=
  match spTree with
  | none => none
  | some shapes =>
    let nextId := maxExistingId shapes + 1
    let step1 : List CNvPr × Int :=
      match recipe.title with
      | some ts =>
        if title ≠ "" then (shapes ++ [⟨ts.name, some nextId⟩], nextId + 1)
        else (shapes, nextId)
      | none => (shapes, nextId)
    let step2 : List CNvPr × Int :=
      match recipe.body with
      | some bs =>
        if body ≠ "" then (step1.1 ++ [⟨bs.name, some step1.2⟩], step1.2 + 1)
        else step1
      | none => step1
    let step3 : List CNvPr × Int :=
      recipe.extra_text_boxes.foldl
        (fun acc ex => (acc.1 ++ [⟨ex.name, some acc.2⟩], acc.2 + 1)) step2
    some step3.1

/-- The names of the boxes `apply_recipe_to_slide` (and
`build_slide_from_recipe`) appends, in order: optional title, optional
body, then the extra boxes. -/
def appendedNames (recipe : LayoutRecipe) (title body : String) : List String :=
  (match recipe.title with
   | some ts => if title ≠ "" then [ts.name] else []
   | none => [])
    ++ (match recipe.body with
        | some bs => if body ≠ "" then [bs.name] else []
        | none => [])
    ++ recipe.extra_text_boxes.map TextBoxSpec.name

/-- Closed form of the appended shapes: names numbered consecutively from a
starting id. -/
def numberFrom (n : Int) : List String → List CNvPr
  | [] => []
  | nm :: rest => ⟨nm, some n⟩ :: numberFrom (n + 1) rest

/-! ## Template diagnostics (`diagnose.py`) -/

/-- Model of `Severity` enum (diagnose.py lines 22-26). -/
inductive Severity where
  | error
  | warning
  | info
deriving DecidableEq, Repr

/-- Model of `DiagnosticIssue` (diagnose.py lines 29-37). -/
structure DiagnosticIssue where
  code : String
  severity : Severity
  message : String
  slide_index : Option Int := none
  category : String := ""
  detail : String := ""
deriving DecidableEq, Repr

/-- Model of `DiagnosticReport` (diagnose.py lines 40-46): the issue list in
discovery order plus the slide/layout/master counts. -/
structure DiagnosticReport where
  issues : List DiagnosticIssue := []
  slide_count : Nat := 0
  layout_count : Nat := 0
  master_count : Nat := 0
deriving DecidableEq, Repr

/-- The `errors` property (diagnose.py lines 48-50). -/
def DiagnosticReport.errors (r : DiagnosticReport) : List DiagnosticIssue :=
  r.issues.filter (fun i => i.severity = Severity.error)

/-- The `warnings` property (diagnose.py lines 52-54). -/
def DiagnosticReport.warnings (r : DiagnosticReport) : List DiagnosticIssue :=
  r.issues.filter (fun i => i.severity = Severity.warning)

/-- The `has_blocking_issues` property (diagnose.py lines 56-58). -/
def DiagnosticReport.hasBlockingIssues (r : DiagnosticReport) : Bool :=
  r.errors.length > 0

/-- One shape (`p:sp`) of a slide part, as the diagnostic checks observe it:
its `p:cNvPr` name attribute when present, and its `a:xfrm/a:ext` extent
when present. -/
structure ShapeXml where
  name : Option String := none
  ext : Option (Int × Int) := none
deriving DecidableEq, Repr

/-- One slide part, as the diagnostic checks observe it.  The three
placeholder booleans are the results of `find_placeholder` — Modelled from
the spec: `find_placeholder` lives in the absent `pptx_utils` module, so
its result on each slide (title role, unindexed body role, index-1 body
role, picture role) is part of the slide model. -/
structure SlideXml where
  hasTitlePh : Bool := false
  hasBodyPh : Bool := false
  hasBodyPh1 : Bool := false
  hasPicPh : Bool := false
  shapes : List ShapeXml := []
deriving DecidableEq, Repr

/-- Modelled from the spec: `find_shape_by_name` lives in the absent
`pptx_utils` module; per §4.3 it locates the shape of the slide carrying the
given name. -/
def findShapeByName (s : SlideXml) (nm : String) : Option ShapeXml :=
  s.shapes.find? (fun sh => sh.name = some nm)

/-- One `<Relationship>` entry of a slide relationship part. -/
structure RelEntry where
  target : String := ""
  relType : String := ""
deriving DecidableEq, Repr

/-- The packaged archive, as the checks observe it through `zf.namelist()`
and `zf.read(...)`: presence of the two required parts, the slide parts
keyed by their numeric suffix, the layout/master part counts, the slide
relationship parts (numeric suffix when parseable, plus entries), and the
basenames available under `ppt/media/`. -/
structure ZipArchive where
  hasContentTypes : Bool := true
  hasPresentation : Bool := true
  slides : List (Int × SlideXml) := []
  layoutCount : Nat := 0
  masterCount : Nat := 0
  rels : List (Option Int × List RelEntry) := []
  mediaNames : List String := []
deriving DecidableEq, Repr

/-- Model of `zf.read(f"ppt/slides/slide{idx}.xml")`: `none` models `KeyError`. -/
def lookupSlide (z : ZipArchive) (idx : Int) : Option SlideXml :=
  z.slides.lookup idx

/-- A brand configuration exposing `get_all_slide_indices()`: a mapping
category → slide indices (a Python dict, modelled as an association list in
insertion order). -/
structure DiagConfig where
  catalog : List (String × List Int) := []
deriving DecidableEq, Repr

/-- The template path together with what the two file-level probes observe:
`Path.exists()` and `zipfile.is_zipfile(...)`, and the archive contents
when it is a valid zip. -/
structure FsTemplate where
  path : String := ""
  fileExists : Bool := true
  isZip : Bool := true
  zip : ZipArchive := {}

/-- Model of `_check_file_exists` (diagnose.py lines 119-130): the issues it appends
and the boolean it returns. -/
def checkFileExists (t : FsTemplate) : List DiagnosticIssue × Bool :=
  if ¬t.fileExists then
    ([{ code := "TMPL-001", severity := .error
        message := "Template file not found", category := "file"
        detail := t.path }], false)
  else ([], true)

/-- Model of `_check_valid_zip` (diagnose.py lines 133-144). -/
def checkValidZip (t : FsTemplate) : List DiagnosticIssue × Bool :=
  if ¬t.isZip then
    ([{ code := "TMPL-002", severity := .error
        message := "Not a valid ZIP/PPTX file", category := "file"
        detail := t.path }], false)
  else ([], true)

/-- Model of `_check_required_parts` (diagnose.py lines 147-164): one TMPL-003 error
per missing required part, in the order `[Content_Types].xml`,
`ppt/presentation.xml`. -/
def checkRequiredParts (z : ZipArchive) : List DiagnosticIssue × Bool :=
  ((if ¬z.hasContentTypes then
      [{ code := "TMPL-003", severity := .error
         message := "Missing required OOXML part: [Content_Types].xml"
         category := "structure" }]
    else [])
    ++ (if ¬z.hasPresentation then
      [{ code := "TMPL-003", severity := .error
         message := "Missing required OOXML part: ppt/presentation.xml"
         category := "structure" }]
    else []),
   z.hasContentTypes && z.hasPresentation)

/-- The maximum numeric suffix among the slide parts (diagnose.py lines
175-180), 0 when there are none. -/
def maxSlideNum (z : ZipArchive) : Int :=
  z.slides.foldl (fun m p => max m p.1) 0

/-- Model of `_check_config_slide_indices` (diagnose.py lines 167-192): TMPL-004
warnings for config slide indices outside `[0, max slide]`. -/
def checkConfigSlideIndices (z : ZipArchive) (config : Option DiagConfig) :
    List DiagnosticIssue :=
  match config with
  | none => []
  | some cfg =>
    let maxSlide := maxSlideNum z
    cfg.catalog.flatMap (fun entry =>
      let category := entry.1
      entry.2.filterMap (fun idx =>
        if idx < 0 ∨ idx > maxSlide then
          some { code := "TMPL-004", severity := .warning
                 message := s!"Config references slide index {idx} for \x27{category}\x27 but template has {maxSlide} slides"
                 category := "config" }
        else none))

/-- Insertion sort of slide parts by numeric suffix (the
`sorted(..., key=...)` of diagnose.py lines 200-203). -/
def insertSlide (p : Int × SlideXml) : List (Int × SlideXml) → List (Int × SlideXml)
  | [] => [p]
  | q :: rest => if p.1 ≤ q.1 then p :: q :: rest else q :: insertSlide p rest

def sortSlides (l : List (Int × SlideXml)) : List (Int × SlideXml) :=
  l.foldr insertSlide []

/-- Model of `_check_slide_placeholders` (diagnose.py lines 195-242): for every slide
part in numeric order, a TMPL-010 warning when the title placeholder is
absent, a TMPL-011 warning when neither body placeholder variant is found,
and a TMPL-012 info when no picture placeholder exists. -/
def checkSlidePlaceholders (z : ZipArchive) : List DiagnosticIssue :=
  (sortSlides z.slides).flatMap (fun p =>
    let slideNum := p.1
    let s := p.2
    (if ¬s.hasTitlePh then
       [{ code := "TMPL-010", severity := .warning
          message := "Slide missing TITLE placeholder"
          slide_index := some slideNum, category := "placeholder" }]
     else [])
      ++ (if ¬(s.hasBodyPh ∨ s.hasBodyPh1) then
       [{ code := "TMPL-011", severity := .warning
          message := "Slide missing BODY placeholder"
          slide_index := some slideNum, category := "placeholder" }]
     else [])
      ++ (if ¬s.hasPicPh then
       [{ code := "TMPL-012", severity := .info
          message := "Slide has no PICTURE placeholder"
          slide_index := some slideNum, category := "placeholder" }]
     else []))

/-- The four named shapes a stats_dashboard slide is expected to carry
(diagnose.py line 266). -/
def statExpectedNames : List String :=
  ["Stat1_Number", "Stat1_Label", "Stat2_Number", "Stat2_Label"]

/-- The body of the `_check_stats_dashboard_shapes` loop for one configured
slide index (diagnose.py lines 258-278): nothing when the slide part is
absent (`KeyError` → `continue`); otherwise the loop over the four expected
names appends a TMPL-020 warning for the first missing name and then
`break`s — at most one warning per index. -/
def statsPerIndex (z : ZipArchive) (idx : Int) : List DiagnosticIssue :=
  match lookupSlide z idx with
  | none => []
  | some s =>
    match statExpectedNames.find? (fun nm => (findShapeByName s nm).isNone) with
    | some nm =>
      [{ code := "TMPL-020", severity := .warning
         message := s!"stats_dashboard slide missing named shape \x27{nm}\x27"
         slide_index := some idx, category := "named_shape" }]
    | none => []

/-- Model of `_check_stats_dashboard_shapes` (diagnose.py lines 245-278). -/
def checkStatsDashboardShapes (z : ZipArchive) (config : Option DiagConfig) :
    List DiagnosticIssue :=
  match config with
  | none => []
  | some cfg =>
    let statIndices := (cfg.catalog.lookup "stats_dashboard").getD []
    statIndices.flatMap (statsPerIndex z)

/-- The body of the `_check_case_study_shapes` loop for one configured slide
index (diagnose.py lines 294-311): one TMPL-021 warning per missing name
among `Quote`, `Attribution` — no early stop. -/
def csPerIndex (z : ZipArchive) (idx : Int) : List DiagnosticIssue :=
  match lookupSlide z idx with
  | none => []
  | some s =>
    ["Quote", "Attribution"].filterMap (fun nm =>
      if (findShapeByName s nm).isNone then
        some { code := "TMPL-021", severity := .warning
               message := s!"case_study_full slide missing \x27{nm}\x27 shape"
               slide_index := some idx, category := "named_shape" }
      else none)

/-- Model of `_check_case_study_shapes` (diagnose.py lines 281-311). -/
def checkCaseStudyShapes (z : ZipArchive) (config : Option DiagConfig) :
    List DiagnosticIssue :=
  match config with
  | none => []
  | some cfg =>
    let csIndices := (cfg.catalog.lookup "case_study_full").getD []
    csIndices.flatMap (csPerIndex z)

/-- Model of `_check_master_count` (diagnose.py lines 314-328): a TMPL-030 warning
when more than 3 master parts exist; returns the count. -/
def checkMasterCount (z : ZipArchive) : List DiagnosticIssue × Nat :=
  let count := z.masterCount
  ((if count > 3 then
      [{ code := "TMPL-030", severity := .warning
         message := s!"Template has {count} slide masters (>3 may cause bloat)"
         category := "structure" }]
    else []),
   count)

/-- Substring containment (Python `sub in s`). -/
def strContains (s sub : String) : Bool :=
  let rec go (cs : List Char) : Bool :=
    match cs with
    | [] => sub.toList.isPrefixOf ([] : List Char)
    | _ :: rest => sub.toList.isPrefixOf cs || go rest
  go s.toList

/-- Model of `os.path.basename`: the part after the last slash. -/
def basename (s : String) : String :=
  match (s.splitOn "/").getLast? with
  | some b => b
  | none => s

/-- Model of `_check_missing_media` (diagnose.py lines 331-358): for every slide
relationship part, every image-typed relationship targeting `../media/`
whose basename is not an existing `ppt/media/` member produces a TMPL-040
warning tied to the part's slide number. -/
def checkMissingMedia (z : ZipArchive) : List DiagnosticIssue :=
  z.rels.flatMap (fun part =>
    let slideNum := part.1
    part.2.filterMap (fun rel =>
      if strContains (lowerStr rel.relType) "image" ∧
          rel.target.startsWith "../media/" then
        let base := basename rel.target
        if ¬z.mediaNames.contains base then
          some { code := "TMPL-040", severity := .warning
                 message := s!"Relationship references missing media file: {base}"
                 slide_index := slideNum, category := "media" }
        else none
      else none))

/-- Model of `_check_large_shapes` (diagnose.py lines 361-397): an info issue for
every shape with an explicit extent whose area exceeds 80% of the standard
10in × 7.5in slide area.  The Python float literal `0.8` is modelled as the
exact rational 4/5 (the comparison is `shape_area * 5 > slide_area * 4`). -/
def checkLargeShapes (z : ZipArchive) : List DiagnosticIssue :=
  z.slides.flatMap (fun p =>
    let slideNum := p.1
    p.2.shapes.filterMap (fun sh =>
      match sh.ext with
      | none => none
      | some (cx, cy) =>
        if cx * cy * 5 > (9144000 * 6858000) * 4 then
          let nm := sh.name.getD "unnamed"
          some { code := "TMPL-050", severity := .info
                 message := s!"Shape \x27{nm}\x27 covers >80% of slide area (potential overlap)"
                 slide_index := some slideNum, category := "layout" }
        else none))

/-- Model of `diagnose_template` (diagnose.py lines 404-458): the full check
pipeline.  The three file-level checks are terminal: each failure returns
the report immediately, before the slide/layout counts are set and before
any later check runs. -/
def diagnoseTemplate (t : FsTemplate) (config : Option DiagConfig := none) :
    DiagnosticReport :=
  let c1 := checkFileExists t
  if ¬c1.2 then { issues := c1.1 }
  else
    let c2 := checkValidZip t
    if ¬c2.2 then { issues := c2.1 }
    else
      let z := t.zip
      let c3 := checkRequiredParts z
      if ¬c3.2 then { issues := c3.1 }
      else
        { issues :=
            c3.1 ++ checkConfigSlideIndices z config
              ++ checkSlidePlaceholders z
              ++ checkStatsDashboardShapes z config
              ++ checkCaseStudyShapes z config
              ++ (checkMasterCount z).1
              ++ checkMissingMedia z
              ++ checkLargeShapes z
          slide_count := z.slides.length
          layout_count := z.layoutCount
          master_count := (checkMasterCount z).2 }

/-! ## JSON values

A small JSON value type, used both for the `_zones` payload of a legacy
slide record (an arbitrary dict the forward conversion receives) and for the
persisted content-document file. Objects keep key order (Python dicts do). -/

inductive Json where
  | jnull
  | jbool (b : Bool)
  | jnum (n : Int)
  | jstr (s : String)
  | jarr (xs : List Json)
  | jobj (fields : List (String × Json))

/-! ## Legacy slide records and the conversion functions (`content.py`)

A legacy record is a loosely-typed dict; §6 of the spec fixes its keys and
their shapes (`number, title, body, layout/layout_hint, images (strings or
structured dicts), speaker_notes, _content_type, _zones, _extraction_notes`).
Each key is modelled as an `Option` field (`none` = key absent), typed per
that contract; `_zones` — which `slides_to_content_document` never reads —
is kept as a raw JSON value. -/

/-- A structured image dict of a legacy record (the keys
`slides_to_content_document` reads at content.py lines 145-152). -/
structure LegacyImageDict where
  path : Option String := none
  width : Option Int := none
  height : Option Int := none
  ext : Option String := none
  alt_text : Option String := none
  placement : Option String := none
deriving DecidableEq, Repr

/-- An entry of a legacy record's `images` list: either a plain path string
or a structured dict (content.py lines 141-152). -/
inductive LegacyImage where
  | strPath (s : String)
  | dict (d : LegacyImageDict)
deriving DecidableEq, Repr

/-- A legacy slide record (`List[Dict]` element), §6 of the spec. -/
structure LegacySlide where
  number : Option Int := none
  title : Option String := none
  body : Option String := none
  speaker_notes : Option String := none
  layout_hint : Option String := none
  layout : Option String := none
  images : Option (List LegacyImage) := none
  contentTypeKey : Option String := none
  zonesKey : Option Json := none
  extractionNotesKey : Option (List String) := none

/-- Conversion of one `images` entry (content.py lines 141-152): a plain
string becomes `SlideImage(path=s)`; a dict is read key by key with the
documented defaults, its `placement` string being coerced to the enum by
pydantic (failure = validation error). -/
def convertImage : LegacyImage → Except String SlideImage
  | .strPath s => .ok { path := s }
  | .dict d =>
    match parsePlacement (d.placement.getD "auto") with
    | some pl =>
      .ok { path := d.path.getD "", width := d.width.getD 0
            height := d.height.getD 0, ext := d.ext.getD ""
            alt_text := d.alt_text.getD "", placement := pl }
    | none => .error "invalid placement"

/-- Sequencing of a list of fallible conversions (the first raised
validation error propagates). -/
def convertImages : List LegacyImage → Except String (List SlideImage)
  | [] => .ok []
  | img :: rest =>
    match convertImage img with
    | .error e => .error e
    | .ok i =>
      match convertImages rest with
      | .error e => .error e
      | .ok is => .ok (i :: is)

/-- The per-record body of the `slides_to_content_document` loop
(content.py lines 139-165) at position `pos` (0-based; `pos + 1` is
`len(content_slides) + 1`, the default slide number).  The `_zones` key is
not read — faithfully to the source.  The `_content_type` string is coerced
to the enum by pydantic (failure = validation error). -/
def convertRecord (pos : Nat) (r : LegacySlide) : Except String SlideContent :=
  match convertImages (r.images.getD []) with
  | .error e => .error e
  | .ok images =>
    match parseContentType (r.contentTypeKey.getD "auto") with
    | none => .error "invalid content_type"
    | some ct =>
      mkSlideContent (r.number.getD (pos + 1)) (r.title.getD "")
        (r.body.getD "") (r.speaker_notes.getD "") ct
        (r.layout_hint.getD (r.layout.getD ""))
        images none (r.extractionNotesKey.getD [])

/-- The whole conversion loop, threading the position. -/
def convertAll (pos : Nat) : List LegacySlide → Except String (List SlideContent)
  | [] => .ok []
  | r :: rest =>
    match convertRecord pos r with
    | .error e => .error e
    | .ok sc =>
      match convertAll (pos + 1) rest with
      | .error e => .error e
      | .ok scs => .ok (sc :: scs)

/-- Model of `slides_to_content_document` (content.py lines 129-174).  The call-time
timestamp `datetime.now(...)` is modelled as the parameter `now`. -/
def slidesToContentDocument (slides : List LegacySlide)
    (source_file : String := "") (source_format : String := "pptx")
    (now : String := "") : Except String ContentDocument :=
  match convertAll 0 slides with
  | .error e => .error e
  | .ok contentSlides =>
    let metadata := mkContentMetadata source_file source_format now
      "ai-presentation-toolkit"
    mkContentDocument "1.0" metadata contentSlides

/-- An image dict of an emitted legacy record (content.py lines 190-198):
only path/width/height/ext are written back. -/
structure OutImage where
  path : String
  width : Int
  height : Int
  ext : String
deriving DecidableEq, Repr

/-- A legacy record as `content_document_to_slides` emits it
(content.py lines 183-227): the always-present keys as plain fields, the
conditionally-present keys as `Option` fields (`none` = key not written). -/
structure OutSlide where
  number : Int
  title : String
  body : String
  layout : String
  images : List OutImage
  imageCount : Nat
  contentTypeKey : Option String := none
  zonesKey : Option Json := none
  extractionNotesKey : Option (List String) := none
  speaker_notes : Option String := none

/-- The `_zones` dict written by `content_document_to_slides`
(content.py lines 205-219). -/
def emitZones : Zones → Json
  | .statsDashboard z =>
    .jobj [("type", .jstr "stats_dashboard"),
           ("stats", .jarr (z.stats.map (fun st =>
             .jobj [("number", .jstr st.number), ("label", .jstr st.label)])))]
  | .caseStudy z =>
    .jobj [("type", .jstr "case_study_full"),
           ("company_name", .jstr z.company_name),
           ("description", .jstr z.description),
           ("bullets", .jstr z.bullets),
           ("quote", .jstr z.quote),
           ("attribution", .jstr z.attribution)]

/-- The per-slide body of `content_document_to_slides`
(content.py lines 184-227). -/
def emitRecord (sc : SlideContent) : OutSlide :=
  { number := sc.number
    title := sc.title
    body := sc.body
    layout := if sc.layout_hint ≠ "" then sc.layout_hint else "DEFAULT"
    images := sc.images.map (fun img =>
      { path := img.path, width := img.width, height := img.height
        ext := img.ext })
    imageCount := sc.images.length
    contentTypeKey :=
      if sc.content_type ≠ ContentType.auto then some sc.content_type.value
      else none
    zonesKey := sc.zones.map emitZones
    extractionNotesKey :=
      if sc.extraction_notes ≠ [] then some sc.extraction_notes else none
    speaker_notes :=
      if sc.speaker_notes ≠ "" then some sc.speaker_notes else none }

/-- Model of `content_document_to_slides` (content.py lines 177-229). -/
def contentDocumentToSlides (doc : ContentDocument) : List OutSlide :=
  doc.slides.map emitRecord

/-! ## Persistence (`content.py` lines 236-249)

`save_content_document` writes `doc.model_dump(mode="json",
exclude_none=True)` as JSON text; `load_content_document` reads the JSON
text back and validates it through `ContentDocument(**data)`.  The file
itself is modelled as the JSON value written/read: `json.dump`/`json.load`
are inverse on it, so the round trip reduces to dump-then-validate. -/

/-- Model of `model_dump` of a `SlideImage` (all fields, enum as its value). -/
def dumpImage (img : SlideImage) : Json :=
  .jobj [("path", .jstr img.path), ("width", .jnum img.width),
         ("height", .jnum img.height), ("ext", .jstr img.ext),
         ("alt_text", .jstr img.alt_text),
         ("placement", .jstr img.placement.value)]

/-- Model of `model_dump` of a zone payload: the frozen `type` tag first, then the
payload fields in declaration order. -/
def dumpZones : Zones → Json
  | .statsDashboard z =>
    .jobj [("type", .jstr "stats_dashboard"),
           ("stats", .jarr (z.stats.map (fun st =>
             .jobj [("number", .jstr st.number), ("label", .jstr st.label)])))]
  | .caseStudy z =>
    .jobj [("type", .jstr "case_study_full"),
           ("company_name", .jstr z.company_name),
           ("description", .jstr z.description),
           ("bullets", .jstr z.bullets),
           ("quote", .jstr z.quote),
           ("attribution", .jstr z.attribution)]

/-- Model of `model_dump(mode="json", exclude_none=True)` of a `SlideContent`: every
field in declaration order, except that `zones` — the only `Optional`
field — is omitted when `None`. -/
def dumpSlide (s : SlideContent) : Json :=
  .jobj
    ([("number", .jnum s.number), ("title", .jstr s.title),
      ("body", .jstr s.body), ("speaker_notes", .jstr s.speaker_notes),
      ("content_type", .jstr s.content_type.value),
      ("layout_hint", .jstr s.layout_hint),
      ("images", .jarr (s.images.map dumpImage))]
      ++ (match s.zones with
          | some z => [("zones", dumpZones z)]
          | none => [])
      ++ [("extraction_notes", .jarr (s.extraction_notes.map Json.jstr))])

/-- Model of `model_dump` of the metadata. -/
def dumpMetadata (m : ContentMetadata) : Json :=
  .jobj [("source_file", .jstr m.source_file),
         ("source_format", .jstr m.source_format),
         ("generated_at", .jstr m.generated_at),
         ("generator", .jstr m.generator)]

/-- Model of `save_content_document` (content.py lines 236-241): the JSON value
written to the file. -/
def saveContentDocument (doc : ContentDocument) : Json :=
  .jobj [("version", .jstr doc.version),
         ("metadata", dumpMetadata doc.metadata),
         ("slides", .jarr (doc.slides.map dumpSlide))]

/-- Validation of every element of a list, failing when any element fails
(pydantic validates list items in order). -/
def mapOpt {α β : Type} (f : α → Option β) : List α → Option (List β)
  | [] => some []
  | a :: rest => do
    let b ← f a
    let bs ← mapOpt f rest
    some (b :: bs)

/-- A JSON value as a string, `None` otherwise (pydantic lax mode does not
coerce numbers to `str`). -/
def asStr : Json → Option String
  | .jstr s => some s
  | _ => none

/-- A JSON value as an integer. -/
def asInt : Json → Option Int
  | .jnum n => some n
  | _ => none

/-- A JSON value as an array. -/
def asArr : Json → Option (List Json)
  | .jarr xs => some xs
  | _ => none

/-- A string field with a default: absent key → default, present key →
must be a string. -/
def optStrField (fields : List (String × Json)) (k : String) (dflt : String) :
    Option String :=
  match fields.lookup k with
  | none => some dflt
  | some v => asStr v

/-- A required string field. -/
def reqStrField (fields : List (String × Json)) (k : String) : Option String :=
  (fields.lookup k).bind asStr

/-- An integer field with a default. -/
def optIntField (fields : List (String × Json)) (k : String) (dflt : Int) :
    Option Int :=
  match fields.lookup k with
  | none => some dflt
  | some v => asInt v

/-- Validation of a `SlideImage` from JSON (pydantic: `path` required, the
rest defaulted, `placement` coerced to the enum). -/
def parseImage (j : Json) : Option SlideImage :=
  match j with
  | .jobj f => do
    let path ← reqStrField f "path"
    let width ← optIntField f "width" 0
    let height ← optIntField f "height" 0
    let ext ← optStrField f "ext" ""
    let altText ← optStrField f "alt_text" ""
    let pl ←
      match f.lookup "placement" with
      | none => some ImagePlacement.auto
      | some v => (asStr v).bind parsePlacement
    some { path := path, width := width, height := height, ext := ext
           alt_text := altText, placement := pl }
  | _ => none

/-- Validation of a `StatZone` from JSON: both strings required. -/
def parseStatZone (j : Json) : Option StatZone :=
  match j with
  | .jobj f => do
    let number ← reqStrField f "number"
    let label ← reqStrField f "label"
    some { number := number, label := label }
  | _ => none

/-- Validation of `StatsDashboardZones` from JSON: the `stats` field is
required, a list of 1..6 stat zones (`min_length=1, max_length=6`). -/
def parseStatsZones (j : Json) : Option StatsDashboardZones :=
  match j with
  | .jobj f => do
    let statsJ ← f.lookup "stats"
    let arr ← asArr statsJ
    let stats ← mapOpt parseStatZone arr
    if 1 ≤ stats.length ∧ stats.length ≤ 6 then some ⟨stats⟩ else none
  | _ => none

/-- Validation of `CaseStudyZones` from JSON: every field defaulted. -/
def parseCaseZones (j : Json) : Option CaseStudyZones :=
  match j with
  | .jobj f => do
    let companyName ← optStrField f "company_name" ""
    let description ← optStrField f "description" ""
    let bullets ← optStrField f "bullets" ""
    let quote ← optStrField f "quote" ""
    let attribution ← optStrField f "attribution" ""
    some { company_name := companyName, description := description
           bullets := bullets, quote := quote, attribution := attribution }
  | _ => none

/-- Validation of the `Union[StatsDashboardZones, CaseStudyZones]` payload:
the members are tried left to right (on the values this serializer writes,
pydantic's smart union resolves the same way: a stats payload carries the
required `stats` key, a case-study payload does not). -/
def parseZones (j : Json) : Option Zones :=
  match parseStatsZones j with
  | some z => some (.statsDashboard z)
  | none => (parseCaseZones j).map .caseStudy

/-- Validation of a `SlideContent` from JSON: field validation in
declaration order with documented defaults, then the
`zones_must_match_content_type` model validator via `mkSlideContent`. -/
def parseSlide (j : Json) : Option SlideContent :=
  match j with
  | .jobj f => do
    let number ← (f.lookup "number").bind asInt
    let title ← reqStrField f "title"
    let body ← reqStrField f "body"
    let speakerNotes ← optStrField f "speaker_notes" ""
    let ct ←
      match f.lookup "content_type" with
      | none => some ContentType.auto
      | some v => (asStr v).bind parseContentType
    let layoutHint ← optStrField f "layout_hint" ""
    let images ←
      match f.lookup "images" with
      | none => some []
      | some v => (asArr v).bind (mapOpt parseImage)
    let zones ←
      match f.lookup "zones" with
      | none => some (none : Option Zones)
      | some .jnull => some none
      | some v => (parseZones v).map some
    let notes ←
      match f.lookup "extraction_notes" with
      | none => some []
      | some v => (asArr v).bind (mapOpt asStr)
    match mkSlideContent number title body speakerNotes ct layoutHint images
      zones notes with
    | .ok s => some s
    | .error _ => none
  | _ => none

/-- Validation of `ContentMetadata` from JSON (both source fields required,
`source_format` normalized by the field validator). -/
def parseMetadata (j : Json) : Option ContentMetadata :=
  match j with
  | .jobj f => do
    let sourceFile ← reqStrField f "source_file"
    let sourceFormat ← reqStrField f "source_format"
    let generatedAt ← optStrField f "generated_at" ""
    let generator ← optStrField f "generator" ""
    some (mkContentMetadata sourceFile sourceFormat generatedAt generator)
  | _ => none

/-- Model of `load_content_document` (content.py lines 244-249): the loaded JSON
value validated through `ContentDocument(**data)`; `none` models a raised
validation error. -/
def loadContentDocument (j : Json) : Option ContentDocument :=
  match j with
  | .jobj f => do
    let version ← optStrField f "version" "1.0"
    let metadata ← (f.lookup "metadata").bind parseMetadata
    let slidesJ ← f.lookup "slides"
    let arr ← asArr slidesJ
    let slides ← mapOpt parseSlide arr
    match mkContentDocument version metadata slides with
    | .ok d => some d
    | .error _ => none
  | _ => none

/-- A `SlideContent` value reachable through pydantic construction: slide
number at least 1, zone payload within bounds and matching the
classification. -/
def validSlideB (s : SlideContent) : Bool :=
  (1 ≤ s.number) &&
    (match s.zones with
     | none => true
     | some (.statsDashboard z) =>
       (1 ≤ z.stats.length && z.stats.length ≤ 6) &&
         (s.content_type = ContentType.auto ∨
          s.content_type = ContentType.stats_dashboard)
     | some (.caseStudy _) =>
       (s.content_type = ContentType.auto ∨
        s.content_type = ContentType.case_study_full))

/-- A `ContentDocument` value reachable through pydantic construction: at
least one slide, each slide valid, and the metadata source format already
in normalized form (the field validator is idempotent). -/
def validDocB (d : ContentDocument) : Bool :=
  (1 ≤ d.slides.length) && d.slides.all validSlideB &&
    (normalizeFmt d.metadata.source_format = d.metadata.source_format)

/-! ## Round-trip preservation (claim C1) -/

/-- The path/width/height/ext quadruple an emitted record derives from a
legacy image entry: for a plain path string the defaults, for a dict its
keys with the documented defaults. -/
def legacyImageFields : LegacyImage → OutImage
  | .strPath s => { path := s, width := 0, height := 0, ext := "" }
  | .dict d => { path := d.path.getD "", width := d.width.getD 0
                 height := d.height.getD 0, ext := d.ext.getD "" }

/-- Per-record preservation through the forward/backward conversion, for
the fields the forward mapping keeps: number, title, body, the
path/width/height/ext of every image, non-empty extraction notes, and a
non-`auto` classification. -/
def preservesRecord (r : LegacySlide) (o : OutSlide) : Prop :=
  (∀ n : Int, r.number = some n → o.number = n) ∧
  (∀ t : String, r.title = some t → o.title = t) ∧
  (∀ b : String, r.body = some b → o.body = b) ∧
  (∀ imgs : List LegacyImage, r.images = some imgs →
    o.images = imgs.map legacyImageFields) ∧
  (∀ notes : List String, r.extractionNotesKey = some notes → notes ≠ [] →
    o.extractionNotesKey = some notes) ∧
  (∀ ct : String, r.contentTypeKey = some ct → ct ≠ "auto" →
    o.contentTypeKey = some ct)

/-- A one-record legacy input carrying the reserved `_zones` key. -/
def c1LegacyInput : List LegacySlide :=
  [{ number := some 1, title := some "Stats", body := some "85%"
     zonesKey := some (Json.jobj
       [("type", Json.jstr "stats_dashboard"),
        ("stats", Json.jarr
          [Json.jobj [("number", Json.jstr "85%"),
                      ("label", Json.jstr "Satisfaction")]])]) }]

end PTK

-- THEOREMS BELOW

namespace PTK

/-!
# Theorems

Each claim of the specification review is settled by one theorem below,
preceded by helper lemmas where needed.
-/

/-- C2: for every zone payload `P` and classification `C`, constructing a
`SlideContent` with otherwise-valid fields (number ≥ 1, title and body
supplied) succeeds iff `C` is `auto` or `P`'s tag matches `C`; every
mismatched non-auto pairing is a validation error at construction time. -/
theorem c2_zones_classification_pairing (P : Zones) (C : ContentType)
    (n : Int) (t b sn lh : String) (imgs : List SlideImage)
    (notes : List String) (hn : 1 ≤ n) :
    isOkE (mkSlideContent n t b sn C lh imgs (some P) notes) = true ↔
      (C = ContentType.auto ∨ zoneTag P = C) := by
  unfold mkSlideContent
  rw [if_neg (by omega)]
  cases P <;> cases C <;>
    simp [zonesMustMatchContentType, zoneTag, isOkE]

/-- Witness for C2 at concrete inputs: a case-study payload with the `auto`
classification is accepted. -/
theorem c2_zones_classification_pairing_witness :
    isOkE (mkSlideContent 1 "t" "b" "" ContentType.auto ""
      [] (some (Zones.caseStudy {})) []) = true :=
  (c2_zones_classification_pairing (Zones.caseStudy {}) ContentType.auto
    1 "t" "b" "" "" [] [] (by norm_num)).mpr (Or.inl rfl)

/-- C9: constructing a `ContentDocument` with an empty slide list always
fails, and with exactly one slide always succeeds. -/
theorem c9_min_one_slide (v : String) (m : ContentMetadata) (s : SlideContent) :
    isOkE (mkContentDocument v m []) = false ∧
      isOkE (mkContentDocument v m [s]) = true := by
  constructor <;> simp [mkContentDocument, isOkE]

/-- An association-list lookup misses every key not in the key list. -/
theorem lookup_eq_none_of_not_mem_keys {β : Type} (nm : String)
    (l : List (String × β)) (h : nm ∉ l.map Prod.fst) : l.lookup nm = none := by
  induction l with
  | nil => rfl
  | cons p rest ih =>
    simp only [List.map_cons, List.mem_cons, not_or] at h
    have hb : (nm == p.1) = false := beq_eq_false_iff_ne.mpr h.1
    simp [List.lookup, hb, ih h.2]

/-- C5: `get_recipe("stats_dashboard")` yields exactly 12 extra text boxes,
named `Stat{N}_Number`/`Stat{N}_Label` for N in 1..6 in row-major order over
the 3×2 grid with column x-offsets 0.5/3.5/6.5 inches and row y-offsets
1.5/4.2 inches (label boxes sit 1.2 inches below their number boxes); and
`get_recipe` of any name outside the 13 registered recipes returns `none`
rather than raising. -/
theorem c5_stats_dashboard_recipe :
    ((getRecipe "stats_dashboard").map
        (fun r => r.extra_text_boxes.map TextBoxSpec.name) =
      some ["Stat1_Number", "Stat1_Label", "Stat2_Number", "Stat2_Label",
            "Stat3_Number", "Stat3_Label", "Stat4_Number", "Stat4_Label",
            "Stat5_Number", "Stat5_Label", "Stat6_Number", "Stat6_Label"]) ∧
    ((getRecipe "stats_dashboard").map
        (fun r => r.extra_text_boxes.map (fun tb => tb.position.x)) =
      some (([0.5, 0.5, 3.5, 3.5, 6.5, 6.5,
              0.5, 0.5, 3.5, 3.5, 6.5, 6.5] : List ℚ).map
        (fun q => truncToInt (q * EMU_PER_INCH)))) ∧
    ((getRecipe "stats_dashboard").map
        (fun r => r.extra_text_boxes.map (fun tb => tb.position.y)) =
      some (([1.5, 1.5 + 1.2, 1.5, 1.5 + 1.2, 1.5, 1.5 + 1.2,
              4.2, 4.2 + 1.2, 4.2, 4.2 + 1.2, 4.2, 4.2 + 1.2] : List ℚ).map
        (fun q => truncToInt (q * EMU_PER_INCH)))) ∧
    (∀ nm : String,
      nm ∉ (["title_opening", "feature_default", "content_image_left",
             "content_image_right", "statement_center", "stat_default",
             "stats_dashboard", "quote_default", "two_column",
             "section_divider", "case_study_full", "closing_cta",
             "hero_photo"] : List String) →
      getRecipe nm = none) := by
  refine ⟨rfl, rfl, rfl, ?_⟩
  intro nm h
  refine lookup_eq_none_of_not_mem_keys nm COOKBOOK ?_
  have hk : COOKBOOK.map Prod.fst =
      ["title_opening", "feature_default", "content_image_left",
       "content_image_right", "statement_center", "stat_default",
       "stats_dashboard", "quote_default", "two_column",
       "section_divider", "case_study_full", "closing_cta",
       "hero_photo"] := rfl
  rw [hk]
  exact h

/-- Witness for C5 at a concrete input: the unregistered name
`nonexistent_layout` yields the not-found signal. -/
theorem c5_stats_dashboard_recipe_witness :
    getRecipe "nonexistent_layout" = none :=
  c5_stats_dashboard_recipe.2.2.2 "nonexistent_layout" (by decide)

/-- C7: for every text-box spec and shape id, the run-properties element of
`build_text_box_xml` carries `sz` equal to the point size times 100 as an
integer string, carries `b`/`i` set to `"1"` exactly when the corresponding
flag is true (the attribute is absent otherwise, never a falsy value), and
passes the color string through unchanged into the solid-fill element. -/
theorem c7_text_box_font_attrs (spec : TextBoxSpec) (shapeId : Int) :
    ∃ rPr : XElem,
      (buildTextBoxXml spec shapeId).findDesc "a:rPr" = some rPr ∧
      rPr.getAttr "sz" = some (toString (spec.font_size_pt * 100)) ∧
      rPr.getAttr "b" = (if spec.bold then some "1" else none) ∧
      rPr.getAttr "i" = (if spec.italic then some "1" else none) ∧
      ∃ clr : XElem,
        rPr.findDesc "a:srgbClr" = some clr ∧
        clr.getAttr "val" = some spec.font_color := by
  cases hb : spec.bold <;> cases hi : spec.italic <;>
    simp [buildTextBoxXml, hb, hi, XElem.findDesc, findByTagL, XElem.getAttr,
      XElem.attrs, XElem.children, XElem.tag, List.lookup] <;>
    aesop

/-- C8: for every recipe with only title/body specs (no extra boxes),
building a slide from empty title and body text yields a shape tree holding
nothing beyond the mandatory group boilerplate (zero content shapes); and
with non-empty title and body the output tree holds both texts verbatim,
with shape ids `1` (group), `2` (title), `3` (body). -/
theorem c8_build_slide_from_recipe (r : LayoutRecipe)
    (hextra : r.extra_text_boxes = []) :
    (spTreeChildren (buildSlideFromRecipe r "" "") = groupBoilerplate ∧
      (buildSlideFromRecipe r "" "").collectTexts = []) ∧
    (∀ (ts bs : TextBoxSpec) (title body : String),
      r.title = some ts → r.body = some bs → title ≠ "" → body ≠ "" →
      (buildSlideFromRecipe r title body).collectTexts = [title, body] ∧
      (buildSlideFromRecipe r title body).collectIds = ["1", "2", "3"]) := by
  constructor
  · cases h1 : r.title <;> cases h2 : r.body <;>
      simp [buildSlideFromRecipe, hextra, h1, h2, spTreeChildren,
        XElem.findDesc, findByTagL, groupBoilerplate, XElem.collectTexts,
        collectTextsL, XElem.children, XElem.tag]
  · intro ts bs title body h1 h2 ht hbody
    simp only [buildSlideFromRecipe, hextra, h1, h2, ht, hbody, ne_eq,
      not_false_eq_true, if_true, List.foldl_nil, ite_true]
    constructor
    · simp [groupBoilerplate, XElem.collectTexts, collectTextsL,
        buildTextBoxXml, XElem.setText, setTextL, XElem.children, XElem.tag,
        XElem.attrs, XElem.text]
    · simp [groupBoilerplate, XElem.collectIds, collectIdsL,
        buildTextBoxXml, XElem.setText, setTextL, XElem.children, XElem.tag,
        XElem.attrs, XElem.text, List.lookup]
      exact ⟨rfl, rfl⟩

/-- The extra-box loop of `apply_recipe_to_slide` in closed form. -/
theorem foldl_append_numberFrom (l : List TextBoxSpec) :
    ∀ (acc : List CNvPr) (n : Int),
      l.foldl (fun acc ex => (acc.1 ++ [⟨ex.name, some acc.2⟩], acc.2 + 1))
          (acc, n)
        = (acc ++ numberFrom n (l.map TextBoxSpec.name), n + l.length) := by
  induction l with
  | nil => intro acc n; simp [numberFrom]
  | cons x xs ih =>
    intro acc n
    simp only [List.foldl_cons, List.map_cons, numberFrom, List.length_cons]
    rw [ih]
    refine Prod.ext ?_ ?_
    · simp
    · simp; omega

/-- Model of `apply_recipe_to_slide` on a present shape-tree container, in closed
form: the existing shapes followed by the appended boxes, numbered
consecutively from one above the maximum existing id. -/
theorem applyRecipeToSlide_eq (shapes : List CNvPr) (r : LayoutRecipe)
    (t b : String) :
    applyRecipeToSlide (some shapes) r t b =
      some (shapes ++
        numberFrom (maxExistingId shapes + 1) (appendedNames r t b)) := by
  unfold applyRecipeToSlide
  rcases h1 : r.title with _ | ts <;> rcases h2 : r.body with _ | bs <;>
    by_cases ht : t = "" <;> by_cases hb : b = "" <;>
    simp [appendedNames, h1, h2, ht, hb, foldl_append_numberFrom, numberFrom,
      List.append_assoc]

/-- The appended boxes carry exactly the appended names, in order. -/
theorem numberFrom_names (l : List String) :
    ∀ n : Int, (numberFrom n l).map CNvPr.name = l := by
  induction l with
  | nil => intro n; rfl
  | cons x xs ih => intro n; simp [numberFrom, ih]

/-- Every appended box id lies in `[n, n + length)`. -/
theorem mem_numberFrom_bounds (l : List String) :
    ∀ (n : Int) (c : CNvPr), c ∈ numberFrom n l →
      ∃ i, c.idAttr = some i ∧ n ≤ i ∧ i < n + l.length := by
  induction l with
  | nil => intro n c hc; simp [numberFrom] at hc
  | cons x xs ih =>
    intro n c hc
    simp only [numberFrom, List.mem_cons] at hc
    rcases hc with rfl | hc
    · refine ⟨n, rfl, le_refl n, ?_⟩
      simp only [List.length_cons]
      omega
    · obtain ⟨i, hi, hlow, hhigh⟩ := ih (n + 1) c hc
      refine ⟨i, hi, by omega, ?_⟩
      simp only [List.length_cons]
      omega

/-- The appended box ids are pairwise distinct. -/
theorem numberFrom_ids_nodup (l : List String) :
    ∀ n : Int, ((numberFrom n l).map CNvPr.idAttr).Nodup := by
  induction l with
  | nil => intro n; simp [numberFrom]
  | cons x xs ih =>
    intro n
    simp only [numberFrom, List.map_cons, List.nodup_cons]
    refine ⟨?_, ih (n + 1)⟩
    intro hmem
    obtain ⟨c, hc, hceq⟩ := List.mem_map.mp hmem
    obtain ⟨i, hi, hlow, _⟩ := mem_numberFrom_bounds xs (n + 1) c hc
    rw [hi] at hceq
    have hin : i = n := by injection hceq
    omega

/-- The max-id fold is at least its initial value. -/
theorem foldlMax_ge_init (shapes : List CNvPr) :
    ∀ m : Int,
      m ≤ shapes.foldl
        (fun m c => match c.idAttr with | some i => max m i | none => m) m := by
  induction shapes with
  | nil => intro m; simp
  | cons d rest ih =>
    intro m
    simp only [List.foldl_cons]
    rcases hd : d.idAttr with _ | i
    · exact ih m
    · exact le_trans (le_max_left m i) (ih (max m i))

/-- Every parsable existing id is bounded by `maxExistingId`. -/
theorem maxExistingId_ge (shapes : List CNvPr) :
    ∀ (c : CNvPr), c ∈ shapes → ∀ j : Int, c.idAttr = some j →
      j ≤ maxExistingId shapes := by
  have aux : ∀ (l : List CNvPr) (m : Int) (c : CNvPr), c ∈ l →
      ∀ j : Int, c.idAttr = some j →
        j ≤ l.foldl
          (fun m c => match c.idAttr with | some i => max m i | none => m) m := by
    intro l
    induction l with
    | nil => intro m c hc; simp at hc
    | cons d rest ih =>
      intro m c hc j hj
      simp only [List.mem_cons] at hc
      simp only [List.foldl_cons]
      rcases hc with rfl | hc
      · rw [hj]
        exact le_trans (le_max_right m j) (foldlMax_ge_init rest (max m j))
      · rcases hd : d.idAttr with _ | i
        · exact ih m c hc j hj
        · exact ih (max m i) c hc j hj
  intro c hc j hj
  exact aux shapes 1 c hc j hj

/-- C4: on every slide tree whose shape-tree container is present,
`apply_recipe_to_slide` appends the title box, body box, then extra boxes
(in that fixed order), assigning consecutive fresh ids; every assigned id is
strictly greater than every integer shape id already present, and the
assigned ids are pairwise distinct (so no collision is introduced). -/
theorem c4_apply_recipe_fresh_ids (shapes : List CNvPr) (r : LayoutRecipe)
    (t b : String) :
    applyRecipeToSlide (some shapes) r t b =
      some (shapes ++
        numberFrom (maxExistingId shapes + 1) (appendedNames r t b)) ∧
    (numberFrom (maxExistingId shapes + 1) (appendedNames r t b)).map
        CNvPr.name = appendedNames r t b ∧
    ((numberFrom (maxExistingId shapes + 1) (appendedNames r t b)).map
        CNvPr.idAttr).Nodup ∧
    (∀ c ∈ numberFrom (maxExistingId shapes + 1) (appendedNames r t b),
      ∀ i : Int, c.idAttr = some i →
        ∀ c' ∈ shapes, ∀ j : Int, c'.idAttr = some j → j < i) := by
  refine ⟨applyRecipeToSlide_eq shapes r t b,
    numberFrom_names (appendedNames r t b) _,
    numberFrom_ids_nodup (appendedNames r t b) _, ?_⟩
  intro c hc i hi c' hc' j hj
  obtain ⟨i', hi', hlow, _⟩ :=
    mem_numberFrom_bounds (appendedNames r t b) (maxExistingId shapes + 1) c hc
  rw [hi] at hi'
  have hii : i = i' := by injection hi'
  have hjle := maxExistingId_ge shapes c' hc' j hj
  omega

/-- Witness for C4 at a concrete input: a tree with one group shape (id 1)
and a recipe with one extra box gets that box appended with id 2. -/
theorem c4_apply_recipe_fresh_ids_witness :
    applyRecipeToSlide (some [⟨"group", some 1⟩])
        { name := "w"
          extra_text_boxes := [{ name := "col_right", position := ⟨0, 0, 1, 1⟩ }] }
        "" ""
      = some [⟨"group", some 1⟩, ⟨"col_right", some 2⟩] := by
  have h := (c4_apply_recipe_fresh_ids [⟨"group", some 1⟩]
    { name := "w"
      extra_text_boxes := [{ name := "col_right", position := ⟨0, 0, 1, 1⟩ }] }
    "" "").1
  simpa [maxExistingId, appendedNames, numberFrom] using h

/-- C3: diagnosing a missing path yields a report whose only issue is the
TMPL-001 error (so `has_blocking_issues` holds); an existing non-archive
file yields only the TMPL-002 error; a valid archive missing the root
presentation part yields a non-empty report whose issues all carry code
TMPL-003 at error severity — and in each terminal case the function returns
immediately, with no issue or count from any later check. -/
theorem c3_terminal_diagnostics (t : FsTemplate) (cfg : Option DiagConfig) :
    (t.fileExists = false →
      diagnoseTemplate t cfg =
        { issues := [{ code := "TMPL-001", severity := .error
                       message := "Template file not found"
                       category := "file", detail := t.path }] } ∧
      (diagnoseTemplate t cfg).hasBlockingIssues = true) ∧
    (t.fileExists = true → t.isZip = false →
      diagnoseTemplate t cfg =
        { issues := [{ code := "TMPL-002", severity := .error
                       message := "Not a valid ZIP/PPTX file"
                       category := "file", detail := t.path }] } ∧
      (diagnoseTemplate t cfg).hasBlockingIssues = true) ∧
    (t.fileExists = true → t.isZip = true → t.zip.hasPresentation = false →
      (∀ i ∈ (diagnoseTemplate t cfg).issues,
        i.code = "TMPL-003" ∧ i.severity = Severity.error) ∧
      (diagnoseTemplate t cfg).issues ≠ [] ∧
      (diagnoseTemplate t cfg).hasBlockingIssues = true ∧
      (diagnoseTemplate t cfg).slide_count = 0 ∧
      (diagnoseTemplate t cfg).layout_count = 0 ∧
      (diagnoseTemplate t cfg).master_count = 0) := by
  refine ⟨?_, ?_, ?_⟩
  · intro h
    constructor <;>
      simp [diagnoseTemplate, checkFileExists, h, DiagnosticReport.hasBlockingIssues,
        DiagnosticReport.errors]
  · intro h1 h2
    constructor <;>
      simp [diagnoseTemplate, checkFileExists, checkValidZip, h1, h2,
        DiagnosticReport.hasBlockingIssues, DiagnosticReport.errors]
  · intro h1 h2 h3
    cases hct : t.zip.hasContentTypes <;>
      simp [diagnoseTemplate, checkFileExists, checkValidZip,
        checkRequiredParts, h1, h2, h3, hct,
        DiagnosticReport.hasBlockingIssues, DiagnosticReport.errors]

/-- Witness for C3 at concrete inputs: one template per terminal case. -/
theorem c3_terminal_diagnostics_witness :
    (diagnoseTemplate { path := "missing.pptx", fileExists := false } none
        ).hasBlockingIssues = true ∧
    (diagnoseTemplate { path := "plain.txt", fileExists := true, isZip := false }
        none).issues =
      [{ code := "TMPL-002", severity := .error
         message := "Not a valid ZIP/PPTX file"
         category := "file", detail := "plain.txt" }] ∧
    (diagnoseTemplate
        { path := "nopres.pptx", fileExists := true, isZip := true
          zip := { hasPresentation := false } } none).hasBlockingIssues = true :=
  ⟨((c3_terminal_diagnostics
      { path := "missing.pptx", fileExists := false } none).1 rfl).2,
   (((c3_terminal_diagnostics
      { path := "plain.txt", fileExists := true, isZip := false } none).2.1
        rfl rfl).1).symm ▸ rfl,
   ((c3_terminal_diagnostics
      { path := "nopres.pptx", fileExists := true, isZip := true
        zip := { hasPresentation := false } } none).2.2 rfl rfl rfl).2.2.1⟩

/-- Filtering a per-index scan by one index keeps exactly that index's
contribution, provided the indices are duplicate-free and every issue of a
contribution carries its own index. -/
theorem filter_flatMap_slide_index (f : Int → List DiagnosticIssue)
    (hf : ∀ j : Int, ∀ i ∈ f j, i.slide_index = some j) (idx : Int) :
    ∀ l : List Int, idx ∈ l → l.Nodup →
      (l.flatMap f).filter (fun i => i.slide_index = some idx) = f idx := by
  intro l
  induction l with
  | nil => intro hmem; simp at hmem
  | cons a rest ih =>
    intro hmem hnd
    rcases List.nodup_cons.mp hnd with ⟨ha, hrest⟩
    simp only [List.flatMap_cons, List.filter_append]
    simp only [List.mem_cons] at hmem
    rcases hmem with rfl | hmem
    · have h1 : (f idx).filter (fun i => i.slide_index = some idx) = f idx := by
        refine List.filter_eq_self.mpr ?_
        intro i hi
        simp [hf idx i hi]
      have h2 : ((rest.flatMap f).filter
          (fun i => i.slide_index = some idx)) = [] := by
        refine List.filter_eq_nil_iff.mpr ?_
        intro i hi
        obtain ⟨j, hj, hij⟩ := List.mem_flatMap.mp hi
        have hsl := hf j i hij
        have hne : j ≠ idx := fun hcontra => ha (hcontra ▸ hj)
        simp [hsl, hne]
      rw [h1, h2, List.append_nil]
    · have hne : a ≠ idx := fun hcontra => ha (hcontra ▸ hmem)
      have h1 : (f a).filter (fun i => i.slide_index = some idx) = [] := by
        refine List.filter_eq_nil_iff.mpr ?_
        intro i hi
        have hsl := hf a i hi
        simp [hsl, hne]
      rw [h1, List.nil_append]
      exact ih hmem hrest

/-- Every issue of the per-index stats_dashboard scan carries that index. -/
theorem statsPerIndex_slide_index (z : ZipArchive) (j : Int) :
    ∀ i ∈ statsPerIndex z j, i.slide_index = some j := by
  intro i hi
  unfold statsPerIndex at hi
  split at hi
  · simp at hi
  · split at hi
    · simp at hi
      rw [hi]
    · simp at hi

/-- Every issue of the per-index case_study scan carries that index. -/
theorem csPerIndex_slide_index (z : ZipArchive) (j : Int) :
    ∀ i ∈ csPerIndex z j, i.slide_index = some j := by
  intro i hi
  unfold csPerIndex at hi
  split at hi
  · simp at hi
  · rename_i s _
    simp only [List.filterMap_cons, List.filterMap_nil] at hi
    cases h1 : (findShapeByName s "Quote").isNone <;>
      cases h2 : (findShapeByName s "Attribution").isNone <;>
      simp [h1, h2] at hi <;>
      first
        | (rw [hi])
        | (rcases hi with hi | hi <;> rw [hi])

/-- Model of `filterMap` of a guarded `some` is a filter followed by a map. -/
theorem filterMap_guard {α β : Type} (p : α → Bool) (g : α → β)
    (l : List α) :
    l.filterMap (fun a => if p a then some (g a) else none) =
      (l.filter p).map g := by
  induction l with
  | nil => rfl
  | cons a rest ih =>
    by_cases h : p a <;> simp [h, ih]

/-- C6: for every slide index the config classifies stats_dashboard whose
part exists, the TMPL-020 issues for that slide are at most one — the match
on the *first* missing name among the four expected shapes; for every
case_study_full index whose part exists, the TMPL-021 issues for that slide
are one per missing name among Quote/Attribution, with no early stop. -/
theorem c6_named_shape_checks (z : ZipArchive) (cfg : DiagConfig)
    (hstat : ((cfg.catalog.lookup "stats_dashboard").getD []).Nodup)
    (hcs : ((cfg.catalog.lookup "case_study_full").getD []).Nodup) :
    (∀ idx ∈ (cfg.catalog.lookup "stats_dashboard").getD [],
      ∀ s : SlideXml, lookupSlide z idx = some s →
      (checkStatsDashboardShapes z (some cfg)).filter
          (fun i => i.slide_index = some idx) =
        (match statExpectedNames.find?
            (fun nm => (findShapeByName s nm).isNone) with
         | some nm =>
           [{ code := "TMPL-020", severity := .warning
              message := s!"stats_dashboard slide missing named shape \x27{nm}\x27"
              slide_index := some idx, category := "named_shape" }]
         | none => [])) ∧
    (∀ idx ∈ (cfg.catalog.lookup "case_study_full").getD [],
      ∀ s : SlideXml, lookupSlide z idx = some s →
      (checkCaseStudyShapes z (some cfg)).filter
          (fun i => i.slide_index = some idx) =
        (["Quote", "Attribution"].filter
            (fun nm => (findShapeByName s nm).isNone)).map (fun nm =>
          { code := "TMPL-021", severity := .warning
            message := s!"case_study_full slide missing \x27{nm}\x27 shape"
            slide_index := some idx, category := "named_shape" })) := by
  constructor
  · intro idx hidx s hs
    unfold checkStatsDashboardShapes
    rw [filter_flatMap_slide_index (statsPerIndex z)
      (statsPerIndex_slide_index z) idx _ hidx hstat]
    unfold statsPerIndex
    rw [hs]
  · intro idx hidx s hs
    unfold checkCaseStudyShapes
    rw [filter_flatMap_slide_index (csPerIndex z)
      (csPerIndex_slide_index z) idx _ hidx hcs]
    unfold csPerIndex
    rw [hs]
    exact filterMap_guard _ _ _

/-- Witness for C6 at concrete inputs: a stats_dashboard slide carrying
only `Stat1_Number` draws exactly one TMPL-020 (for `Stat1_Label`, the
first missing name), and a case_study_full slide carrying only `Quote`
draws exactly one TMPL-021 (for `Attribution`). -/
theorem c6_named_shape_checks_witness :
    (checkStatsDashboardShapes
        { slides := [(2, { shapes := [{ name := some "Stat1_Number" }] }),
                     (3, { shapes := [{ name := some "Quote" }] })] }
        (some { catalog := [("stats_dashboard", [2]),
                            ("case_study_full", [3])] })).filter
        (fun i => i.slide_index = some 2) =
      [{ code := "TMPL-020", severity := .warning
         message := "stats_dashboard slide missing named shape \x27Stat1_Label\x27"
         slide_index := some 2, category := "named_shape" }] ∧
    (checkCaseStudyShapes
        { slides := [(2, { shapes := [{ name := some "Stat1_Number" }] }),
                     (3, { shapes := [{ name := some "Quote" }] })] }
        (some { catalog := [("stats_dashboard", [2]),
                            ("case_study_full", [3])] })).filter
        (fun i => i.slide_index = some 3) =
      [{ code := "TMPL-021", severity := .warning
         message := "case_study_full slide missing \x27Attribution\x27 shape"
         slide_index := some 3, category := "named_shape" }] := by
  have h := c6_named_shape_checks
    { slides := [(2, { shapes := [{ name := some "Stat1_Number" }] }),
                 (3, { shapes := [{ name := some "Quote" }] })] }
    { catalog := [("stats_dashboard", [2]), ("case_study_full", [3])] }
    (by decide) (by decide)
  constructor
  · have h1 := h.1 2 (by decide) { shapes := [{ name := some "Stat1_Number" }] } rfl
    simpa using h1
  · have h2 := h.2 3 (by decide) { shapes := [{ name := some "Quote" }] } rfl
    simpa using h2

/-- Coercing an `ImagePlacement` value string back yields the member. -/
theorem parsePlacement_value (pl : ImagePlacement) :
    parsePlacement pl.value = some pl := by
  cases pl <;> rfl

/-- Coercing a `ContentType` value string back yields the member. -/
theorem parseContentType_value (c : ContentType) :
    parseContentType c.value = some c := by
  cases c <;> rfl

/-- Element-wise round trip lifts to `mapOpt` over a mapped list. -/
theorem mapOpt_map_roundtrip {α β : Type} (d : α → β) (p : β → Option α)
    (l : List α) (h : ∀ x ∈ l, p (d x) = some x) :
    mapOpt p (l.map d) = some l := by
  induction l with
  | nil => rfl
  | cons a rest ih =>
    simp only [List.map_cons, mapOpt, h a (List.mem_cons_self a rest),
      Option.bind_eq_bind, Option.some_bind,
      ih (fun x hx => h x (List.mem_cons_of_mem a hx))]

/-- A dumped image validates back to itself. -/
theorem parseImage_dump (img : SlideImage) :
    parseImage (dumpImage img) = some img := by
  simp [parseImage, dumpImage, reqStrField, optStrField, optIntField,
    asStr, asInt, List.lookup, parsePlacement_value]

/-- A dumped stat zone validates back to itself. -/
theorem parseStatZone_dump (st : StatZone) :
    parseStatZone (dumpZones (Zones.statsDashboard ⟨[st]⟩)) = none ∧
    parseStatZone (.jobj [("number", .jstr st.number),
                          ("label", .jstr st.label)]) = some st := by
  constructor <;> rfl

/-- A dumped stats payload within the 1..6 bound validates back. -/
theorem parseStatsZones_dump (z : StatsDashboardZones)
    (h1 : 1 ≤ z.stats.length) (h2 : z.stats.length ≤ 6) :
    parseStatsZones (dumpZones (Zones.statsDashboard z)) = some z := by
  have hmap : mapOpt parseStatZone (z.stats.map (fun st =>
      Json.jobj [("number", .jstr st.number), ("label", .jstr st.label)]))
      = some z.stats := by
    refine mapOpt_map_roundtrip _ _ _ ?_
    intro st _
    rfl
  simp [parseStatsZones, dumpZones, asArr, List.lookup, hmap, h1, h2]

/-- A dumped case-study payload fails the stats member (no `stats` key) and
validates as a case-study payload — the union resolves it correctly. -/
theorem parseZones_dump_case (z : CaseStudyZones) :
    parseZones (dumpZones (Zones.caseStudy z)) = some (Zones.caseStudy z) := by
  rfl

/-- A dumped zone payload validates back to itself when the stats list is
within bounds. -/
theorem parseZones_dump (z : Zones)
    (h : ∀ zs, z = Zones.statsDashboard zs →
      1 ≤ zs.stats.length ∧ zs.stats.length ≤ 6) :
    parseZones (dumpZones z) = some z := by
  cases z with
  | statsDashboard zs =>
    obtain ⟨h1, h2⟩ := h zs rfl
    simp [parseZones, parseStatsZones_dump zs h1 h2]
  | caseStudy zc => exact parseZones_dump_case zc

/-- Pydantic construction succeeds and returns a valid slide unchanged. -/
theorem mkSlideContent_valid (s : SlideContent) (h : validSlideB s = true) :
    mkSlideContent s.number s.title s.body s.speaker_notes s.content_type
      s.layout_hint s.images s.zones s.extraction_notes = .ok s := by
  unfold validSlideB at h
  rw [Bool.and_eq_true] at h
  have hnum : 1 ≤ s.number := of_decide_eq_true h.1
  have hm := h.2
  unfold mkSlideContent
  rw [if_neg (by omega)]
  show zonesMustMatchContentType s = Except.ok s
  unfold zonesMustMatchContentType
  rcases hz : s.zones with _ | z
  · simp [hz]
  · rw [hz] at hm
    cases z with
    | statsDashboard zs =>
      simp only [Bool.and_eq_true, decide_eq_true_eq] at hm
      obtain ⟨-, hor⟩ := hm
      rcases hor with hc | hc <;> simp [hc]
    | caseStudy zc =>
      simp only [decide_eq_true_eq] at hm
      rcases hm with hc | hc <;> simp [hc]

/-- A dumped slide validates back to itself when valid. -/
theorem parseSlide_dump (s : SlideContent) (h : validSlideB s = true) :
    parseSlide (dumpSlide s) = some s := by
  have himg : mapOpt parseImage (s.images.map dumpImage) = some s.images :=
    mapOpt_map_roundtrip dumpImage parseImage s.images
      (fun img _ => parseImage_dump img)
  have hnotes : mapOpt asStr (s.extraction_notes.map Json.jstr)
      = some s.extraction_notes :=
    mapOpt_map_roundtrip Json.jstr asStr s.extraction_notes
      (fun nt _ => rfl)
  have hmk := mkSlideContent_valid s h
  rcases hz : s.zones with _ | z
  · simp [parseSlide, dumpSlide, hz, reqStrField, optStrField, asStr, asInt,
      List.lookup, parseContentType_value, himg, hnotes, asArr]
    rw [← hz, hmk]
  · have hzp : parseZones (dumpZones z) = some z := by
      refine parseZones_dump z ?_
      intro zs hzs
      unfold validSlideB at h
      rw [Bool.and_eq_true] at h
      have hm := h.2
      rw [hz, hzs] at hm
      simp only [Bool.and_eq_true, decide_eq_true_eq] at hm
      exact hm.1
    cases z with
    | statsDashboard zs =>
      simp only [dumpZones] at hzp
      simp [parseSlide, dumpSlide, hz, dumpZones, reqStrField, optStrField,
        asStr, asInt, List.lookup, parseContentType_value, himg, hnotes,
        asArr, hzp]
      rw [← hz, hmk]
    | caseStudy zc =>
      simp only [dumpZones] at hzp
      simp [parseSlide, dumpSlide, hz, dumpZones, reqStrField, optStrField,
        asStr, asInt, List.lookup, parseContentType_value, himg, hnotes,
        asArr, hzp]
      rw [← hz, hmk]

/-- Dumped metadata validates back to itself when its source format is
already in normalized form. -/
theorem parseMetadata_dump (m : ContentMetadata)
    (h : normalizeFmt m.source_format = m.source_format) :
    parseMetadata (dumpMetadata m) = some m := by
  simp [parseMetadata, dumpMetadata, reqStrField, optStrField, asStr,
    List.lookup, mkContentMetadata, h]

/-- C10: persistence round trip — loading a saved content document yields a
document field-for-field equal to the original, for every document reachable
through pydantic construction (the optional zone payload is omitted from the
file when absent and restored as absent on load). -/
theorem c10_save_load_roundtrip (d : ContentDocument)
    (h : validDocB d = true) :
    loadContentDocument (saveContentDocument d) = some d := by
  simp only [validDocB, Bool.and_eq_true, decide_eq_true_eq,
    List.all_eq_true] at h
  obtain ⟨⟨hlen, hall⟩, hfmt⟩ := h
  have hslides : mapOpt parseSlide (d.slides.map dumpSlide) = some d.slides :=
    mapOpt_map_roundtrip dumpSlide parseSlide d.slides
      (fun s hs => parseSlide_dump s (hall s hs))
  have hne : d.slides ≠ [] := by
    intro he
    rw [he] at hlen
    simp at hlen
  simp [loadContentDocument, saveContentDocument, optStrField, asStr, asArr,
    List.lookup, parseMetadata_dump d.metadata hfmt, hslides,
    mkContentDocument, hne]

/-- Witness for C10 at a concrete document: a one-slide document with a
stats zone payload survives the save/load round trip. -/
theorem c10_save_load_roundtrip_witness :
    loadContentDocument (saveContentDocument
      { version := "1.0"
        metadata := { source_file := "t.pptx", source_format := "pptx" }
        slides := [{ number := 1, title := "Stats", body := ""
                     content_type := ContentType.stats_dashboard
                     zones := some (Zones.statsDashboard
                       ⟨[{ number := "85%", label := "Satisfaction" }]⟩) }] })
      = some
      { version := "1.0"
        metadata := { source_file := "t.pptx", source_format := "pptx" }
        slides := [{ number := 1, title := "Stats", body := ""
                     content_type := ContentType.stats_dashboard
                     zones := some (Zones.statsDashboard
                       ⟨[{ number := "85%", label := "Satisfaction" }]⟩) }] } :=
  c10_save_load_roundtrip _ (by decide)

/-- Witness for C8 at a concrete recipe: non-empty title and body land
verbatim in the built tree. -/
theorem c8_build_slide_from_recipe_witness :
    (buildSlideFromRecipe
        { name := "w"
          title := some { name := "title", position := ⟨0, 0, 1, 1⟩ }
          body := some { name := "body", position := ⟨0, 0, 1, 1⟩ } }
        "Test Title" "Test body").collectTexts = ["Test Title", "Test body"] :=
  ((c8_build_slide_from_recipe _ rfl).2 _ _ "Test Title" "Test body"
    rfl rfl (by decide) (by decide)).1

/-- The model validator passes a slide through unchanged when it accepts. -/
theorem zonesMustMatch_ok (x y : SlideContent)
    (h : zonesMustMatchContentType x = .ok y) : y = x := by
  unfold zonesMustMatchContentType at h
  split at h <;> (try split at h) <;> (try split at h) <;> simp_all

/-- Pydantic construction yields exactly the record built from its
arguments. -/
theorem mkSlideContent_ok_eq (n : Int) (t b sn : String) (ct : ContentType)
    (lh : String) (imgs : List SlideImage) (zs : Option Zones)
    (notes : List String) (sc : SlideContent)
    (h : mkSlideContent n t b sn ct lh imgs zs notes = .ok sc) :
    sc = { number := n, title := t, body := b, speaker_notes := sn
           content_type := ct, layout_hint := lh, images := imgs
           zones := zs, extraction_notes := notes } := by
  unfold mkSlideContent at h
  split at h
  · simp at h
  · exact zonesMustMatch_ok _ _ h

/-- Model of `mkContentDocument` yields exactly the record built from its
arguments. -/
theorem mkContentDocument_ok_eq (v : String) (m : ContentMetadata)
    (scs : List SlideContent) (doc : ContentDocument)
    (h : mkContentDocument v m scs = .ok doc) :
    doc = { version := v, metadata := m, slides := scs } := by
  unfold mkContentDocument at h
  split at h
  · simp at h
  · simp at h
    exact h.symm

/-- A string the enum coercion accepts is the value of the member it
yields. -/
theorem parseContentType_value_inv (s : String) (c : ContentType)
    (h : parseContentType s = some c) : c.value = s := by
  unfold parseContentType at h
  split at h
  all_goals first
    | (injection h with h2; subst h2; rfl)
    | (exact absurd h (by simp))

/-- The converted image keeps the original's path/width/height/ext. -/
theorem convertImage_fields (img : LegacyImage) (i : SlideImage)
    (h : convertImage img = .ok i) :
    ({ path := i.path, width := i.width, height := i.height
       ext := i.ext } : OutImage) = legacyImageFields img := by
  cases img with
  | strPath s =>
    simp only [convertImage, Except.ok.injEq] at h
    rw [← h]
    rfl
  | dict d =>
    simp only [convertImage] at h
    split at h
    · simp only [Except.ok.injEq] at h
      rw [← h]
      rfl
    · simp at h

/-- The converted image list keeps every original's
path/width/height/ext. -/
theorem convertImages_fields (l : List LegacyImage) :
    ∀ out : List SlideImage, convertImages l = .ok out →
      out.map (fun img =>
          ({ path := img.path, width := img.width,
             height := img.height, ext := img.ext } : OutImage))
        = l.map legacyImageFields := by
  induction l with
  | nil =>
    intro out h
    simp only [convertImages, Except.ok.injEq] at h
    rw [← h]
    rfl
  | cons img rest ih =>
    intro out h
    simp only [convertImages] at h
    split at h
    · exact absurd h (by simp)
    · rename_i i hi
      split at h
      · exact absurd h (by simp)
      · rename_i is his
        simp only [Except.ok.injEq] at h
        subst h
        simp only [List.map_cons]
        rw [ih is his, convertImage_fields img i hi]

/-- One converted record, emitted back, preserves the C1 fields. -/
theorem convertRecord_preserves (p : Nat) (r : LegacySlide)
    (sc : SlideContent) (h : convertRecord p r = .ok sc) :
    preservesRecord r (emitRecord sc) := by
  unfold convertRecord at h
  split at h
  · exact absurd h (by simp)
  rename_i images himg
  split at h
  · exact absurd h (by simp)
  rename_i ct hct
  have hsc := mkSlideContent_ok_eq _ _ _ _ _ _ _ _ _ _ h
  subst hsc
  refine ⟨?_, ?_, ?_, ?_, ?_, ?_⟩
  · intro n hn
    simp [emitRecord, hn]
  · intro t ht
    simp [emitRecord, ht]
  · intro b hb
    simp [emitRecord, hb]
  · intro imgs himgs
    rw [himgs] at himg
    simp only [Option.getD_some] at himg
    simp only [emitRecord]
    exact convertImages_fields imgs images himg
  · intro notes hn hne
    simp [emitRecord, hn, hne]
  · intro cts hcts hne
    rw [hcts] at hct
    simp only [Option.getD_some] at hct
    have hval := parseContentType_value_inv cts ct hct
    have hcta : ct ≠ ContentType.auto := by
      intro he
      rw [he] at hval
      exact hne (hval.symm ▸ rfl)
    simp [emitRecord, hcta, hval]

/-- The whole conversion loop preserves the C1 fields record by record. -/
theorem convertAll_preserves (L : List LegacySlide) :
    ∀ (p : Nat) (scs : List SlideContent), convertAll p L = .ok scs →
      List.Forall₂ preservesRecord L (scs.map emitRecord) := by
  induction L with
  | nil =>
    intro p scs h
    simp only [convertAll, Except.ok.injEq] at h
    rw [← h]
    exact List.Forall₂.nil
  | cons r rest ih =>
    intro p scs h
    simp only [convertAll] at h
    split at h
    · exact absurd h (by simp)
    rename_i sc hr
    split at h
    · exact absurd h (by simp)
    rename_i scs' hrest
    simp only [Except.ok.injEq] at h
    subst h
    exact List.Forall₂.cons (convertRecord_preserves p r sc hr)
      (ih (p + 1) scs' hrest)

/-- C1 (amended): for every accepted legacy input, the round trip through
`slides_to_content_document` and `content_document_to_slides` preserves,
record by record, the number, title, body, image path/width/height/ext,
non-empty extraction notes, and non-`auto` classification when present in
the original record.  The reserved `_zones` key is NOT preserved: the
forward conversion never reads it (see the counterexample). -/
theorem c1_roundtrip_preserves_fields (L : List LegacySlide)
    (sf fmt now : String) (doc : ContentDocument)
    (h : slidesToContentDocument L sf fmt now = .ok doc) :
    List.Forall₂ preservesRecord L (contentDocumentToSlides doc) := by
  unfold slidesToContentDocument at h
  split at h
  · exact absurd h (by simp)
  rename_i scs hall
  have hdoc := mkContentDocument_ok_eq _ _ _ _ h
  subst hdoc
  unfold contentDocumentToSlides
  exact convertAll_preserves L 0 scs hall

/-- Witness for the amended C1 at a concrete input. -/
theorem c1_roundtrip_preserves_fields_witness :
    List.Forall₂ preservesRecord
      [{ number := some 1, title := some "T", body := some "B" }]
      (contentDocumentToSlides
        { version := "1.0"
          metadata := { source_file := "f", source_format := "pptx"
                        generated_at := "now"
                        generator := "ai-presentation-toolkit" }
          slides := [{ number := 1, title := "T", body := "B" }] }) :=
  c1_roundtrip_preserves_fields
    [{ number := some 1, title := some "T", body := some "B" }]
    "f" "pptx" "now" _ rfl

/-- C1 counterexample: a legacy record carrying the reserved `_zones` key
loses it through the round trip — the forward conversion silently drops the
zone payload, so the claim as stated is false. -/
theorem c1_roundtrip_counterexample :
    (slidesToContentDocument c1LegacyInput "test.pptx" "pptx" "now").map
        (fun doc => (contentDocumentToSlides doc).map OutSlide.zonesKey)
      = Except.ok [none] ∧
    c1LegacyInput.map LegacySlide.zonesKey ≠ [none] := by
  constructor
  · rfl
  · simp [c1LegacyInput]

end PTK
